import Mathlib

/-!
# Shallow embedding of the visual-novel runtime engine

This file embeds the runtime playback engine of the repository
(`engine.py` together with the data model of `story.py`) and proves the
testable properties of its specification against that embedding.

Modelling conventions, applied uniformly:

* Python floats are modelled as rationals (`ℚ`); `pygame.time.get_ticks()`
  values are rational milliseconds supplied through an explicit `Env`.
* The filesystem (`os.path.exists`, and success of `pygame.image.load` /
  `pygame.mixer.Sound`) is a boolean predicate `Env.fs` on paths.
* Python dicts with insertion-order semantics are association lists
  (`assocSet` / `assocGet` / `assocDel` below).
* Scene-element dicts that the engine reads with `dict.get(key, default)`
  are modelled as total records whose fields already carry the value the
  engine would obtain (the default when the key is absent).
* Rendering (pygame surfaces, fonts, blitting) carries no engine state that
  any property depends on and is not modelled; colour strings are carried
  symbolically instead of being parsed to RGB tuples.
* Audio playback is modelled as an event trace (`Event` below) so that
  "a sound was played / stopped" is observable.
-/

namespace VN

/-- Python `int(x)` for a float: truncation toward zero. -/
def pyInt (q : ℚ) : ℤ := if q < 0 then -⌊-q⌋ else ⌊q⌋

/-- Python float modulo `a % b` (for `b > 0`): `a - b * floor (a / b)`. -/
def pyFMod (a b : ℚ) : ℚ := a - b * ⌊a / b⌋

/-- Python dict assignment `d[k] = v`: replaces in place, else appends. -/
def assocSet {β : Type} : List (String × β) → String → β → List (String × β)
  | [], k, v => [(k, v)]
  | (k', v') :: rest, k, v =>
      if k' = k then (k, v) :: rest else (k', v') :: assocSet rest k v

/-- Python dict lookup `d.get(k)`. -/
def assocGet {β : Type} : List (String × β) → String → Option β
  | [], _ => none
  | (k', v') :: rest, k => if k' = k then some v' else assocGet rest k

/-- Python `del d[k]` (keys are unique, so deleting the first match). -/
def assocDel {β : Type} : List (String × β) → String → List (String × β)
  | [], _ => []
  | (k', v') :: rest, k => if k' = k then rest else (k', v') :: assocDel rest k

/-- Replace the element at index `i` (no-op when out of range). -/
def updAt {α : Type} (l : List α) (i : ℕ) (f : α → α) : List α :=
  match l.get? i with
  | some a => l.set i (f a)
  | none => l

/-- Truthiness of an `Optional[str]`: `None` and `""` are falsy. -/
def optStrTruthy : Option String → Bool
  | some s => s ≠ ""
  | none => false

/-! ## `DialogBox` (`engine.py` 57–139): the typewriter sequencer -/

/-- State of `DialogBox` that the text animation reads and writes
(`engine.py` 77–87).  Colour strings are carried symbolically; the
default name colour `(255, 255, 255)` is written `"#FFFFFF"`. -/
structure DialogBox where
  full_text : String
  displayed_text : String
  char_index : ℚ
  text_speed : ℚ
  is_complete : Bool
  current_name : String
  current_name_color : String
  current_name_bg_color : Option String
deriving DecidableEq

/-- `DialogBox.__init__` text-animation fields (`engine.py` 77–87). -/
def DialogBox.init : DialogBox :=
  { full_text := "", displayed_text := "", char_index := 0, text_speed := 2,
    is_complete := true, current_name := "", current_name_color := "#FFFFFF",
    current_name_bg_color := none }

/-- `DialogBox.set_dialog` (`engine.py` 95–124).  `typing_duration = none`
is Python `None` (default rate), `some 0` is instant. -/
def DialogBox.set_dialog (b : DialogBox) (name text : String)
    (name_color : String) (name_bg_color : Option String)
    (typing_duration : Option ℚ) : DialogBox :=
  let text_len : ℚ := if text = "" then 1 else (text.length : ℚ)
  let speed : ℚ :=
    match typing_duration with
    | some d =>
        if d = 0 then text_len + 1
        else
          let total_frames := d * 60
          if 0 < total_frames then text_len / total_frames else text_len
    | none => 1
  { b with
    full_text := text, displayed_text := "", char_index := 0,
    text_speed := speed, is_complete := false,
    current_name := name, current_name_color := name_color,
    current_name_bg_color := name_bg_color }

/-- `DialogBox.update` (`engine.py` 126–133): one 60 Hz frame of the
typewriter. -/
def DialogBox.update (b : DialogBox) : DialogBox :=
  if b.is_complete then b
  else
    let ci := b.char_index + b.text_speed
    if (b.full_text.length : ℚ) ≤ ci then
      { b with char_index := (b.full_text.length : ℚ), is_complete := true,
               displayed_text := b.full_text }
    else
      { b with char_index := ci,
               displayed_text := b.full_text.take (pyInt ci).toNat }

/-- `DialogBox.skip_animation` (`engine.py` 135–139). -/
def DialogBox.skip_animation (b : DialogBox) : DialogBox :=
  { b with displayed_text := b.full_text,
           char_index := (b.full_text.length : ℚ), is_complete := true }

/-! ## `ChoiceMenu` (`engine.py` 213–284) -/

/-- `story.py` 494–505. -/
structure Choice where
  text : String
  next_scene_id : String
deriving DecidableEq

/-- The pygame key constants the choice menu distinguishes. -/
inductive GKey
  | up
  | down
  | ret
  | space
  | other
deriving DecidableEq

/-- The pygame events the choice menu distinguishes. -/
inductive PyEvent
  | keyDown (key : GKey)
  | mouseMotion (pos : ℤ × ℤ)
  | mouseButtonDown (button : ℤ) (pos : ℤ × ℤ)
  | other
deriving DecidableEq

/-- A pygame `Rect`. -/
structure PyRect where
  x : ℤ
  y : ℤ
  w : ℤ
  h : ℤ
deriving DecidableEq

/-- `pygame.Rect.collidepoint`: left/top inclusive, right/bottom exclusive. -/
def PyRect.collidepoint (r : PyRect) (p : ℤ × ℤ) : Bool :=
  decide (r.x ≤ p.1) && decide (p.1 < r.x + r.w) &&
  decide (r.y ≤ p.2) && decide (p.2 < r.y + r.h)

/-- State of `ChoiceMenu` (`engine.py` 216–229). -/
structure ChoiceMenu where
  screen_width : ℤ
  screen_height : ℤ
  choices : List Choice
  selected_index : ℤ
  is_active : Bool
deriving DecidableEq

/-- `ChoiceMenu.__init__` (`engine.py` 216–229). -/
def ChoiceMenu.init (w h : ℤ) : ChoiceMenu :=
  { screen_width := w, screen_height := h, choices := [],
    selected_index := 0, is_active := false }

/-- `ChoiceMenu.set_choices` (`engine.py` 231–235). -/
def ChoiceMenu.set_choices (m : ChoiceMenu) (choices : List Choice) : ChoiceMenu :=
  { m with choices := choices, selected_index := 0,
           is_active := decide (0 < choices.length) }

/-- `ChoiceMenu._get_choice_rect` (`engine.py` 260–270); Python `//` is
floor division. -/
def ChoiceMenu.get_choice_rect (m : ChoiceMenu) (index : ℤ) : PyRect :=
  let choice_height : ℤ := 50
  let choice_width : ℤ := 500
  let total_height : ℤ := (m.choices.length : ℤ) * (choice_height + 10)
  let start_y : ℤ := Int.fdiv (m.screen_height - total_height) 2
  let x : ℤ := Int.fdiv (m.screen_width - choice_width) 2
  let y : ℤ := start_y + index * (choice_height + 10)
  ⟨x, y, choice_width, choice_height⟩

/-- `ChoiceMenu._update_hover` (`engine.py` 272–277): first hit wins. -/
def ChoiceMenu.update_hover (m : ChoiceMenu) (pos : ℤ × ℤ) : ChoiceMenu :=
  match (List.range m.choices.length).find?
      (fun i => (m.get_choice_rect (Int.ofNat i)).collidepoint pos) with
  | some i => { m with selected_index := Int.ofNat i }
  | none => m

/-- `ChoiceMenu._get_choice_at_pos` (`engine.py` 279–284). -/
def ChoiceMenu.get_choice_at_pos (m : ChoiceMenu) (pos : ℤ × ℤ) : Option ℕ :=
  (List.range m.choices.length).find?
    (fun i => (m.get_choice_rect (Int.ofNat i)).collidepoint pos)

/-- `ChoiceMenu.handle_input` (`engine.py` 237–258).  Returns the updated
menu and the target scene id, if a choice was confirmed.  Python `%` on a
positive modulus agrees with `Int.emod`.  In reachable states
`selected_index` is a valid index, so `List.get?` mirrors Python's
`choices[selected_index]`. -/
def ChoiceMenu.handle_input (m : ChoiceMenu) (event : PyEvent) :
    ChoiceMenu × Option String :=
  if m.is_active = false then (m, none)
  else
    match event with
    | .keyDown .up =>
        ({ m with selected_index :=
            (m.selected_index - 1).emod (m.choices.length : ℤ) }, none)
    | .keyDown .down =>
        ({ m with selected_index :=
            (m.selected_index + 1).emod (m.choices.length : ℤ) }, none)
    | .keyDown .ret | .keyDown .space =>
        (m, (m.choices.get? m.selected_index.toNat).map (·.next_scene_id))
    | .keyDown .other => (m, none)
    | .mouseMotion pos => (m.update_hover pos, none)
    | .mouseButtonDown button pos =>
        if button = 1 then
          match m.get_choice_at_pos pos with
          | some idx => (m, (m.choices.get? idx).map (·.next_scene_id))
          | none => (m, none)
        else (m, none)
    | .other => (m, none)

/-! ## Keyframe animation (`engine.py` 846–966: `AnimationPlayer`)

The engine only ever feeds `AnimationPlayer` keyframe dicts built by
`_start_dialog_animations` / `_start_background_animations`
(`engine.py` 2802–2813, 2834–2844), which always populate all six keys
(`time,x,y,scale,rotation,alpha`) with their defaults.  A keyframe is
therefore a total record and the `kf.get('scale', 1.0)`-style reads in
`AnimationPlayer.update` always find the key. -/

structure Keyframe where
  time : ℚ
  x : ℚ
  y : ℚ
  scale : ℚ
  rotation : ℚ
  alpha : ℚ
deriving DecidableEq

/-- The interpolated transform produced for one track by one
`AnimationPlayer.update` pass (`engine.py` 923–937). -/
structure Pose where
  x : ℚ
  y : ℚ
  scale : ℚ
  rotation : ℚ
  alpha : ℚ
deriving DecidableEq

/-- The pose a single keyframe describes. -/
def Keyframe.pose (k : Keyframe) : Pose :=
  ⟨k.x, k.y, k.scale, k.rotation, k.alpha⟩

/-- The `for i, kf in enumerate(keyframes)` bracketing loop of
`AnimationPlayer.update` (`engine.py` 904–914): walk keyframes whose time
is `≤ elapsed`, updating `prev` (and `next` when a successor exists), and
break at the first later keyframe. -/
def bracketAux (elapsed : ℚ) : Keyframe → Keyframe → List Keyframe →
    Keyframe × Keyframe
  | prev, next, [] => (prev, next)
  | prev, next, kf :: rest =>
      if kf.time ≤ elapsed then
        match rest with
        | [] => (kf, next)
        | kf2 :: rest' => bracketAux elapsed kf kf2 (kf2 :: rest')
      else (prev, kf)

/-- The last keyframe of a non-empty track (`keyframes[-1]`). -/
def trackLast (k : Keyframe) (t : List Keyframe) : Keyframe :=
  (k :: t).getLast (List.cons_ne_nil k t)

/-- The interpolation step of `AnimationPlayer.update`
(`engine.py` 916–937): ratio clamped to `[0,1]`, `0` when the bracketing
keyframes coincide, then strictly linear in every field. -/
def interp (prev next : Keyframe) (elapsed : ℚ) : Pose :=
  let t : ℚ :=
    if prev.time = next.time then 0
    else max 0 (min 1 ((elapsed - prev.time) / (next.time - prev.time)))
  { x := prev.x + (next.x - prev.x) * t
    y := prev.y + (next.y - prev.y) * t
    scale := prev.scale + (next.scale - prev.scale) * t
    rotation := prev.rotation + (next.rotation - prev.rotation) * t
    alpha := prev.alpha + (next.alpha - prev.alpha) * t }

/-- Evaluation of one non-empty track at elapsed seconds
(`engine.py` 897–937): wrap modulo the total span when looping, find the
bracketing pair, interpolate. -/
def evalTrackNE (k : Keyframe) (t : List Keyframe) (loop : Bool)
    (elapsed : ℚ) : Pose :=
  let total := (trackLast k t).time
  let e := if loop = true ∧ 0 < total then pyFMod elapsed total else elapsed
  let pn := bracketAux e k (trackLast k t) (k :: t)
  interp pn.1 pn.2 e

/-- A registered animation (`engine.py` 854–856). -/
structure Track where
  keyframes : List Keyframe
  loop : Bool
deriving DecidableEq

/-- An entry of `active_animations` (`engine.py` 858–866). -/
structure ActiveTrack where
  start_time : ℚ
  keyframes : List Keyframe
  loop : Bool
deriving DecidableEq

/-- `AnimationPlayer` state (`engine.py` 849–851). -/
structure AnimationPlayer where
  animations : List (String × Track)
  active_animations : List (String × ActiveTrack)
deriving DecidableEq

/-- `AnimationPlayer.add_animation` (`engine.py` 854–856). -/
def AnimationPlayer.add_animation (p : AnimationPlayer) (char_id : String)
    (keyframes : List Keyframe) (loop : Bool) : AnimationPlayer :=
  { p with animations := assocSet p.animations char_id ⟨keyframes, loop⟩ }

/-- `AnimationPlayer.start_animation` (`engine.py` 858–866); `now` is the
`pygame.time.get_ticks()` value. -/
def AnimationPlayer.start_animation (p : AnimationPlayer) (now : ℚ)
    (char_id : String) : AnimationPlayer :=
  match assocGet p.animations char_id with
  | some tr =>
      { p with active_animations :=
          assocSet p.active_animations char_id ⟨now, tr.keyframes, tr.loop⟩ }
  | none => p

/-- `AnimationPlayer.start_all` (`engine.py` 868–871). -/
def AnimationPlayer.start_all (p : AnimationPlayer) (now : ℚ) : AnimationPlayer :=
  p.animations.foldl (fun q kv => q.start_animation now kv.1) p

/-- `AnimationPlayer.stop_animation` (`engine.py` 873–876). -/
def AnimationPlayer.stop_animation (p : AnimationPlayer) (char_id : String) :
    AnimationPlayer :=
  { p with active_animations := assocDel p.active_animations char_id }

/-- `AnimationPlayer.clear` (`engine.py` 878–881). -/
def AnimationPlayer.clear (p : AnimationPlayer) : AnimationPlayer :=
  { p with animations := [], active_animations := [] }

/-! ## On-screen sprites (`engine.py` 315–843)

Only the transform state that the engine logic reads or writes is kept;
the pygame surface pipeline (`_apply_transforms`, `_apply_skew`, `draw`)
renders from these fields and holds no further engine state.  Success of
`load_image` is `has_image` (the path is non-empty and loadable). -/

/-- `CharacterSprite` transform state (`engine.py` 324–340). -/
structure CharacterSprite where
  character_id : Option String
  position : String
  x : ℚ
  y : ℚ
  rotation : ℚ
  flip_x : Bool
  flip_y : Bool
  scale : ℚ
  skew_x : ℚ
  skew_y : ℚ
  alpha : ℤ
  use_exact_position : Bool
  has_image : Bool
deriving DecidableEq

/-- `CharacterSprite.__init__` defaults (`engine.py` 324–340). -/
def CharacterSprite.init : CharacterSprite :=
  { character_id := none, position := "center", x := 1/2, y := 7/10,
    rotation := 0, flip_x := false, flip_y := false, scale := 1,
    skew_x := 0, skew_y := 0, alpha := 255,
    use_exact_position := false, has_image := false }

/-- `CharacterSprite.set_exact_position` (`engine.py` 457–479).  The
`needs_transform` checks only gate the surface recomputation; every field
ends up holding the argument value. -/
def CharacterSprite.set_exact_position (s : CharacterSprite)
    (x y : ℚ) (rotation : ℚ := 0) (flip_x : Bool := false)
    (flip_y : Bool := false) (scale : ℚ := 1) (skew_x : ℚ := 0)
    (skew_y : ℚ := 0) : CharacterSprite :=
  { s with x := x, y := y, use_exact_position := true, rotation := rotation,
           flip_x := flip_x, flip_y := flip_y, scale := scale,
           skew_x := skew_x, skew_y := skew_y }

/-- `CharacterSprite.set_position` for a position name
(`engine.py` 447–455, keys of `POSITIONS` at 318–322). -/
def CharacterSprite.set_position (s : CharacterSprite) (pos : String) :
    CharacterSprite :=
  { s with position := if pos = "left" ∨ pos = "center" ∨ pos = "right"
                       then pos else "center",
           use_exact_position := false }

/-- `ImageSprite` transform state (`engine.py` 502–517). -/
structure ImageSprite where
  image_id : String
  x : ℚ
  y : ℚ
  rotation : ℚ
  flip_x : Bool
  flip_y : Bool
  scale : ℚ
  skew_x : ℚ
  skew_y : ℚ
  layer : ℤ
  alpha : ℤ
  has_image : Bool
deriving DecidableEq

/-- `ImageSprite.__init__` defaults (`engine.py` 502–517). -/
def ImageSprite.init : ImageSprite :=
  { image_id := "", x := 1/2, y := 1/2, rotation := 0, flip_x := false,
    flip_y := false, scale := 1, skew_x := 0, skew_y := 0, layer := 0,
    alpha := 255, has_image := false }

/-- The character branch of `AnimationPlayer.update` (`engine.py`
956–962): the first sprite with the matching id receives the pose via
`set_exact_position(x, y, rotation=…, scale=…)` (flips and skews reset to
their defaults) and `alpha = int(alpha * 255)`. -/
def applyPoseToChars (sprites : List CharacterSprite) (anim_id : String)
    (pose : Pose) : List CharacterSprite :=
  match sprites.findIdx? (fun s => s.character_id = some anim_id) with
  | some i =>
      updAt sprites i (fun s =>
        { s.set_exact_position pose.x pose.y pose.rotation false false
            pose.scale 0 0 with alpha := pyInt (pose.alpha * 255) })
  | none => sprites

/-- The image branch of `AnimationPlayer.update` (`engine.py` 942–954). -/
def applyPoseToImages (images : List ImageSprite) (img_id : String)
    (pose : Pose) : List ImageSprite :=
  match images.findIdx? (fun s => s.image_id = img_id) with
  | some i =>
      updAt images i (fun s =>
        { s with x := pose.x, y := pose.y, scale := pose.scale,
                 rotation := pose.rotation,
                 alpha := pyInt (pose.alpha * 255) })
  | none => images

/-- One iteration of the `for anim_id, anim_data in list(...)` loop of
`AnimationPlayer.update` (`engine.py` 889–966): skip empty tracks,
evaluate, route to the image or character target by the `img_` prefix,
and drop a finished non-looping track. -/
def animStep (now : ℚ)
    (acc : AnimationPlayer × List CharacterSprite × List ImageSprite)
    (idtr : String × ActiveTrack) :
    AnimationPlayer × List CharacterSprite × List ImageSprite :=
  let q := acc.1
  let cs := acc.2.1
  let is := acc.2.2
  let anim_id := idtr.1
  let tr := idtr.2
  let elapsed := (now - tr.start_time) / 1000
  match tr.keyframes with
  | [] => acc
  | k :: t =>
      let pose := evalTrackNE k t tr.loop elapsed
      let targets :=
        if anim_id.startsWith "img_" then
          (cs, applyPoseToImages is (anim_id.drop 4) pose)
        else
          (applyPoseToChars cs anim_id pose, is)
      let q' :=
        if tr.loop = false ∧ (trackLast k t).time < elapsed then
          { q with active_animations := assocDel q.active_animations anim_id }
        else q
      (q', targets)

/-- `AnimationPlayer.update` (`engine.py` 883–966): iterate over a
snapshot of `active_animations`, move targets, drop finished tracks. -/
def AnimationPlayer.update (p : AnimationPlayer) (now : ℚ)
    (sprites : List CharacterSprite) (images : List ImageSprite) :
    AnimationPlayer × List CharacterSprite × List ImageSprite :=
  p.active_animations.foldl (animStep now) (p, sprites, images)

/-! ## `TextSprite` (`engine.py` 632–843): scene text overlays -/

/-- A `texts_on_screen` entry of the story document, with the defaults
`_load_texts` (`engine.py` 2628–2659) would supply via `dict.get`. -/
structure TextDecl where
  id : String := ""
  text : String := ""
  x : ℚ := 1/2
  y : ℚ := 1/2
  font_size : ℤ := 36
  color : String := "#FFFFFF"
  outline_color : String := "#000000"
  outline_width : ℤ := 2
  animation : String := "none"
  animation_duration : ℚ := 1
  block_skip : Bool := false
  rotation : ℚ := 0
  scale : ℚ := 1
  order : ℤ := 0
  fade_in_duration : ℚ := 1
  fade_out_duration : ℚ := 1
  hold_duration : ℚ := 2
deriving DecidableEq

/-- `TextSprite` state (`engine.py` 635–665). -/
structure TextSprite where
  text_id : String
  text : String
  x : ℚ
  y : ℚ
  font_size : ℤ
  color : String
  outline_color : Option String
  outline_width : ℤ
  alpha : ℤ
  rotation : ℚ
  scale : ℚ
  animation : String
  fade_in_duration : ℚ
  fade_out_duration : ℚ
  hold_duration : ℚ
  block_skip : Bool
  order : ℤ
  animation_start_time : Option ℚ
  animation_phase : String
  animation_complete : Bool
  started : Bool
  visible : Bool
deriving DecidableEq

/-- `TextSprite.setup` (`engine.py` 667–714), including the
back-compatibility rule that `animation_duration` replaces a
`fade_in_duration` left at its default `1.0`. -/
def TextSprite.setup (d : TextDecl) : TextSprite :=
  let base : TextSprite :=
    { text_id := d.id, text := d.text, x := d.x, y := d.y,
      font_size := d.font_size, color := d.color,
      outline_color := if d.outline_color ≠ "" then some d.outline_color else none,
      outline_width := d.outline_width, alpha := 0,
      rotation := d.rotation, scale := d.scale, animation := d.animation,
      fade_in_duration :=
        if d.fade_in_duration ≠ 1 then d.fade_in_duration else d.animation_duration,
      fade_out_duration := d.fade_out_duration, hold_duration := d.hold_duration,
      block_skip := d.block_skip, order := d.order,
      animation_start_time := none, animation_phase := "waiting",
      animation_complete := false, started := false, visible := false }
  if d.animation = "none" then
    { base with alpha := 255, animation_complete := true, started := true,
                visible := true, animation_phase := "complete" }
  else
    base

/-- `TextSprite.start` (`engine.py` 716–730). -/
def TextSprite.start (s : TextSprite) (now : ℚ) : TextSprite :=
  if s.started = true ∨ s.animation = "none" then s
  else
    let s := { s with started := true, visible := true,
                      animation_start_time := some now }
    if s.animation = "fade_in" ∨ s.animation = "fade_in_out" then
      { s with alpha := 0, animation_phase := "fade_in" }
    else if s.animation = "fade_out" then
      { s with alpha := 255, animation_phase := "fade_out" }
    else s

/-- `TextSprite.update` (`engine.py` 782–823); `now` is
`pygame.time.get_ticks()`. -/
def TextSprite.tick (s : TextSprite) (now : ℚ) : TextSprite :=
  if s.animation_complete = true ∨ s.started = false then s
  else
    match s.animation_start_time with
    | none => s
    | some st =>
        let elapsed := (now - st) / 1000
        if s.animation = "fade_in" then
          let progress := min (elapsed / s.fade_in_duration) 1
          let s := { s with alpha := pyInt (255 * progress) }
          if 1 ≤ progress then
            { s with animation_complete := true, animation_phase := "complete" }
          else s
        else if s.animation = "fade_out" then
          let progress := min (elapsed / s.fade_out_duration) 1
          let s := { s with alpha := pyInt (255 * (1 - progress)) }
          if 1 ≤ progress then
            { s with animation_complete := true, animation_phase := "complete",
                     visible := false }
          else s
        else if s.animation = "fade_in_out" then
          if s.animation_phase = "fade_in" then
            let progress := min (elapsed / s.fade_in_duration) 1
            let s := { s with alpha := pyInt (255 * progress) }
            if 1 ≤ progress then
              { s with animation_phase := "hold", animation_start_time := some now }
            else s
          else if s.animation_phase = "hold" then
            if s.hold_duration ≤ elapsed then
              { s with animation_phase := "fade_out",
                       animation_start_time := some now }
            else s
          else if s.animation_phase = "fade_out" then
            let progress := min (elapsed / s.fade_out_duration) 1
            let s := { s with alpha := pyInt (255 * (1 - progress)) }
            if 1 ≤ progress then
              { s with animation_complete := true, animation_phase := "complete",
                       visible := false }
            else s
          else s
        else s

/-- `TextSprite.is_blocking` (`engine.py` 825–827). -/
def TextSprite.is_blocking (s : TextSprite) : Bool :=
  s.block_skip && !s.animation_complete

/-! ## Story data model (`story.py` 478–666) -/

/-- A dialog-line position override (`engine.py` 2871–2894 reads `x`/`y`
directly and the rest with defaults). -/
structure PosOverride where
  x : ℚ
  y : ℚ
  rotation : ℚ := 0
  flip_x : Bool := false
  flip_y : Bool := false
  scale : ℚ := 1
  skew_x : ℚ := 0
  skew_y : ℚ := 0
deriving DecidableEq

/-- A `background_animations` / per-line `animations` entry
(`engine.py` 2795–2817).  The keyframe dicts are converted to total
keyframe records exactly as `_start_dialog_animations` does. -/
structure AnimDecl where
  character_id : Option String := none
  image_id : Option String := none
  keyframes : List Keyframe := []
  loop : Bool := false
deriving DecidableEq

/-- The id the animation is registered under (`engine.py` 2816):
`char_id if char_id else f"img_{image_id}"`, guarded by
`char_id or image_id` being truthy. -/
def AnimDecl.animId (a : AnimDecl) : Option String :=
  if optStrTruthy a.character_id then a.character_id
  else if optStrTruthy a.image_id then a.image_id.map (fun i => "img_" ++ i)
  else none

/-- `story.py` 508–537. -/
structure DialogLine where
  character_id : Option String := none
  text : String := ""
  emotion : String := "default"
  animations : List AnimDecl := []
  position : Option PosOverride := none
  sound_file : Option String := none
  typing_speed : Option ℚ := none
  delay : Option ℚ := none
  is_delay_only : Bool := false
deriving DecidableEq

/-- A `characters_on_screen` entry (`engine.py` 2668–2705): `exact` is
present iff both `'x'` and `'y'` keys are present in the dict. -/
structure CharPlacement where
  id : Option String := none
  emotion : String := "default"
  exact : Option PosOverride := none
  position : String := "center"
deriving DecidableEq

/-- An `images_on_screen` entry with `_load_images` defaults
(`engine.py` 2597–2626). -/
structure ImgPlacement where
  id : String := ""
  path : String := ""
  x : ℚ := 1/2
  y : ℚ := 1/2
  rotation : ℚ := 0
  flip_x : Bool := false
  flip_y : Bool := false
  scale : ℚ := 1
  skew_x : ℚ := 0
  skew_y : ℚ := 0
  layer : ℤ := 0
deriving DecidableEq

/-- `story.py` 582–595. -/
structure Scene where
  id : String
  name : String := ""
  background : String := ""
  background_color : Option (ℤ × ℤ × ℤ) := none
  dialogs : List DialogLine := []
  characters_on_screen : List CharPlacement := []
  images_on_screen : List ImgPlacement := []
  texts_on_screen : List TextDecl := []
  background_animations : List AnimDecl := []
  choices : List Choice := []
  next_scene_id : Option String := none
  music : String := ""
deriving DecidableEq

/-- `story.py` 478–484. -/
structure Character where
  id : String
  name : String
  color : String := "#FFFFFF"
  name_bg_color : String := ""
  images : List (String × String) := []
deriving DecidableEq

/-- `story.py` 632–645, restricted to the fields the runtime engine
reads (title, theme colours and menu configs only style the UI). -/
structure Story where
  start_scene_id : String := ""
  characters : List (String × Character) := []
  scenes : List (String × Scene) := []
deriving DecidableEq

/-- `Story.get_scene` (`story.py` 664–665). -/
def Story.get_scene (st : Story) (scene_id : String) : Option Scene :=
  assocGet st.scenes scene_id

/-- `Story.get_character` (`story.py` 661–662). -/
def Story.get_character (st : Story) (char_id : String) : Option Character :=
  assocGet st.characters char_id

/-- `character.images.get(emotion, character.images.get('default', ''))`
(`engine.py` 2687, 2856). -/
def imageFor (ch : Character) (emotion : String) : String :=
  match assocGet ch.images emotion with
  | some p => p
  | none => (assocGet ch.images "default").getD ""

/-! ## `SaveManager` (`engine.py` 1100–1227)

The save directory is modelled as the association list `files`
(slot id ↦ parsed `save_<slot>.json`); `slots` is the in-memory cache.
Thumbnails are pygame surfaces and are not modelled. -/

/-- The `game_state` blob; the engine itself only ever reads
`play_time` out of it (`engine.py` 1165). -/
structure SaveBlob where
  play_time : ℚ := 0
deriving DecidableEq

/-- One save metadata record (`engine.py` 1160–1167). -/
structure SaveRecord where
  scene_id : String
  scene_name : String
  dialog_index : ℕ
  timestamp : String
  play_time : ℚ
deriving DecidableEq

/-- `SaveManager` state (`engine.py` 1106–1122). -/
structure SaveManager where
  files : List (String × SaveRecord)
  slots : List (String × SaveRecord)
deriving DecidableEq

/-- `SaveManager.save_game` (`engine.py` 1153–1186): write the record,
refresh the cache.  `timestamp` stands for `datetime.now().strftime(…)`;
the screenshot argument only feeds the (unmodelled) thumbnail. -/
def SaveManager.save_game (sm : SaveManager) (slot_id scene_id scene_name : String)
    (dialog_index : ℕ) (timestamp : String) (game_state : Option SaveBlob) :
    SaveManager :=
  let record : SaveRecord :=
    { scene_id := scene_id, scene_name := scene_name,
      dialog_index := dialog_index, timestamp := timestamp,
      play_time := match game_state with
                   | some g => g.play_time
                   | none => 0 }
  { files := assocSet sm.files slot_id record,
    slots := assocSet sm.slots slot_id record }

/-- `SaveManager.load_game` (`engine.py` 1188–1200): read the slot's
file; a missing file is `none`. -/
def SaveManager.load_game (sm : SaveManager) (slot_id : String) :
    Option SaveRecord :=
  assocGet sm.files slot_id

/-! ## `VisualNovelEngine` (`engine.py` 2411–3292) -/

/-- Observable audio side effects, in emission order. -/
inductive Event
  | stopMusic
  | playMusicOk (path : String)
  | stopDialogSound
  | playDialogSound (path : String)
deriving DecidableEq

/-- The per-call environment: the filesystem (`os.path.exists` and load
success) and the current `pygame.time.get_ticks()` value in
milliseconds.  All reads of the clock within one handler happen in the
same tick. -/
structure Env where
  fs : String → Bool
  now : ℚ

/-- The engine state (`engine.py` 2414–2477) restricted to the fields
its logic reads or writes.  `background` is the path of the successfully
loaded background surface; `pause_active` is `pause_menu.active`;
`events` is the audio trace. -/
structure Engine where
  story : Option Story
  current_scene : Option Scene
  current_dialog_index : ℕ
  state : String
  state_before_pause : String
  dialog_box : DialogBox
  choice_menu : ChoiceMenu
  animation_player : AnimationPlayer
  characters_on_screen : List CharacterSprite
  images_on_screen : List ImageSprite
  texts_on_screen : List TextSprite
  background : Option String
  backgrounds_cache : List String
  background_color : Option (ℤ × ℤ × ℤ)
  music_playing : Bool
  dialog_delay_start : Option ℚ
  dialog_delay_duration : ℚ
  dialog_is_delay_only : Bool
  skip_mode : Bool
  pause_active : Bool
  save_manager : SaveManager
  events : List Event
deriving DecidableEq

/-- `VisualNovelEngine.__init__` state (`engine.py` 2414–2477). -/
def Engine.init : Engine :=
  { story := none, current_scene := none, current_dialog_index := 0,
    state := "menu", state_before_pause := "dialog",
    dialog_box := DialogBox.init, choice_menu := ChoiceMenu.init 1280 720,
    animation_player := ⟨[], []⟩,
    characters_on_screen := [], images_on_screen := [], texts_on_screen := [],
    background := none, backgrounds_cache := [], background_color := none,
    music_playing := false,
    dialog_delay_start := none, dialog_delay_duration := 0,
    dialog_is_delay_only := false,
    skip_mode := false, pause_active := false,
    save_manager := ⟨[], []⟩, events := [] }

/-- `_stop_music` (`engine.py` 2707–2714). -/
def Engine.stopMusicE (e : Engine) : Engine :=
  { e with music_playing := false, events := e.events ++ [Event.stopMusic] }

/-- `_stop_dialog_sound` (`engine.py` 2487–2492). -/
def Engine.stopDialogSoundE (e : Engine) : Engine :=
  { e with events := e.events ++ [Event.stopDialogSound] }

/-- `_play_music` (`engine.py` 2716–2735): a missing file is only
logged, `music_playing` is left as it was. -/
def Engine.playMusicE (e : Engine) (env : Env) (path : String) : Engine :=
  if path = "" then e
  else if env.fs path then
    { e with music_playing := true, events := e.events ++ [Event.playMusicOk path] }
  else e

/-- `_load_background` (`engine.py` 2576–2595).  The cache stores paths
of previously loaded surfaces; load success for an uncached path is
`env.fs`. -/
def Engine.loadBackgroundE (e : Engine) (env : Env) (path : String) : Engine :=
  if path = "" then { e with background := none }
  else if path ∈ e.backgrounds_cache then { e with background := some path }
  else if env.fs path then
    { e with backgrounds_cache := e.backgrounds_cache ++ [path],
             background := some path }
  else { e with background := none }

/-- `_load_images` (`engine.py` 2597–2626): build the sprites, then a
stable sort by layer (Python `list.sort` is stable, as is
`List.insertionSort`). -/
def loadImages (env : Env) (data : List ImgPlacement) : List ImageSprite :=
  let sprites := data.map (fun d =>
    { ImageSprite.init with
        image_id := d.id,
        has_image := decide (d.path ≠ "") && env.fs d.path,
        x := d.x, y := d.y, rotation := d.rotation,
        flip_x := d.flip_x, flip_y := d.flip_y, scale := d.scale,
        skew_x := d.skew_x, skew_y := d.skew_y, layer := d.layer })
  sprites.insertionSort (fun a b => a.layer ≤ b.layer)

/-- `_start_next_text` (`engine.py` 2661–2666): start the first
not-yet-started animated overlay. -/
def startNextText (now : ℚ) (texts : List TextSprite) : List TextSprite :=
  match texts.findIdx? (fun s => s.started = false ∧ s.animation ≠ "none") with
  | some i => updAt texts i (fun s => s.start now)
  | none => texts

/-- `_load_texts` (`engine.py` 2628–2659): build, stable-sort by
`order`, kick off the first animated overlay. -/
def loadTexts (now : ℚ) (data : List TextDecl) : List TextSprite :=
  startNextText now
    ((data.map TextSprite.setup).insertionSort (fun a b => a.order ≤ b.order))

/-- `_load_characters` (`engine.py` 2668–2705). -/
def loadCharacters (env : Env) (st : Story) (data : List CharPlacement) :
    List CharacterSprite :=
  data.foldl (fun acc p =>
    match p.id with
    | none => acc
    | some cid =>
        match st.get_character cid with
        | none => acc
        | some ch =>
            let image_path := imageFor ch p.emotion
            let s := { CharacterSprite.init with
                         character_id := some cid,
                         has_image := decide (image_path ≠ "") && env.fs image_path }
            let s := match p.exact with
                     | some pos =>
                         s.set_exact_position pos.x pos.y pos.rotation
                           pos.flip_x pos.flip_y pos.scale pos.skew_x pos.skew_y
                     | none => s.set_position p.position
            acc ++ [s]) []

/-- The shared body of `_start_dialog_animations` (`engine.py`
2791–2820) and `_start_background_animations` (after its `clear()`):
register each usable declaration, then `start_all` — which (re)starts
every registered animation, background ones included. -/
def startAnims (now : ℚ) (p : AnimationPlayer) (anims : List AnimDecl) :
    AnimationPlayer :=
  let p := anims.foldl (fun q a =>
    if a.keyframes ≠ [] then
      match a.animId with
      | some anim_id => q.add_animation anim_id a.keyframes a.loop
      | none => q
    else q) p
  p.start_all now

/-- `_start_background_animations` (`engine.py` 2822–2850). -/
def startBackgroundAnims (now : ℚ) (p : AnimationPlayer)
    (anims : List AnimDecl) : AnimationPlayer :=
  startAnims now p.clear anims

/-- `_show_speaking_character` (`engine.py` 2852–2899). -/
def Engine.showSpeakingCharacter (e : Engine) (env : Env) (ch : Character)
    (emotion : String) (position : Option PosOverride) : Engine :=
  let image_path := imageFor ch emotion
  if image_path = "" then e
  else
    match e.characters_on_screen.findIdx?
        (fun s => s.character_id = some ch.id) with
    | some i =>
        { e with characters_on_screen :=
            updAt e.characters_on_screen i (fun s =>
              let s := { s with has_image := env.fs image_path }
              match position with
              | some pos =>
                  s.set_exact_position pos.x pos.y pos.rotation
                    pos.flip_x pos.flip_y pos.scale pos.skew_x pos.skew_y
              | none => s) }
    | none =>
        let base := { CharacterSprite.init with character_id := some ch.id }
        match position with
        | some pos =>
            if env.fs image_path then
              { e with characters_on_screen := e.characters_on_screen ++
                  [{ base.set_exact_position pos.x pos.y pos.rotation
                       pos.flip_x pos.flip_y pos.scale pos.skew_x pos.skew_y
                     with has_image := true }] }
            else e
        | none =>
            if env.fs image_path then
              { e with characters_on_screen := e.characters_on_screen ++
                  [{ base.set_position "center" with has_image := true }] }
            else e

/-- `_show_dialog` (`engine.py` 2737–2789). -/
def Engine.showDialog (e : Engine) (env : Env) (index : ℕ) : Engine :=
  match e.current_scene with
  | none => e
  | some scene =>
      match scene.dialogs.get? index with
      | none => e
      | some dialog =>
          let e := e.stopDialogSoundE
          let delay_dur : ℚ := dialog.delay.getD 0
          let e := { e with
            dialog_delay_duration := delay_dur,
            dialog_is_delay_only := dialog.is_delay_only,
            dialog_delay_start := if 0 < delay_dur then some env.now else none }
          let e := match dialog.sound_file with
                   | some p =>
                       if p ≠ "" ∧ env.fs p = true then
                         { e with events := e.events ++ [Event.playDialogSound p] }
                       else e
                   | none => e
          let e := if dialog.animations ≠ [] then
                     { e with animation_player :=
                         startAnims env.now e.animation_player dialog.animations }
                   else e
          if dialog.is_delay_only then
            let box := e.dialog_box.set_dialog "" "" "#FFFFFF" none (some 0)
            { e with dialog_box := box, current_dialog_index := index }
          else
            let resolved : String × String × Option String × Engine :=
              match dialog.character_id, e.story with
              | some cid, some st =>
                  match st.get_character cid with
                  | some ch =>
                      (ch.name, ch.color,
                       if ch.name_bg_color ≠ "" then some ch.name_bg_color else none,
                       e.showSpeakingCharacter env ch dialog.emotion dialog.position)
                  | none => ("", "#FFFFFF", none, e)
              | _, _ => ("", "#FFFFFF", none, e)
            let e := resolved.2.2.2
            let box := e.dialog_box.set_dialog resolved.1 dialog.text
                         resolved.2.1 resolved.2.2.1 dialog.typing_speed
            { e with dialog_box := box, current_dialog_index := index }

/-- `go_to_scene` (`engine.py` 2533–2574). -/
def Engine.goToScene (e : Engine) (env : Env) (scene_id : String) : Engine :=
  match e.story with
  | none => e
  | some st =>
      match st.get_scene scene_id with
      | none => e
      | some scene =>
          let e := e.stopMusicE
          let e := e.stopDialogSoundE
          let e := { e with current_scene := some scene,
                            current_dialog_index := 0, state := "dialog",
                            choice_menu := { e.choice_menu with is_active := false } }
          let e := e.loadBackgroundE env scene.background
          let e := { e with background_color := scene.background_color }
          let e := { e with images_on_screen := loadImages env scene.images_on_screen }
          let e := { e with texts_on_screen := loadTexts env.now scene.texts_on_screen }
          let e := { e with characters_on_screen :=
                       loadCharacters env st scene.characters_on_screen }
          let e := if scene.music ≠ "" then e.playMusicE env scene.music else e
          let player := startBackgroundAnims env.now e.animation_player
                          scene.background_animations
          let e := { e with animation_player := player }
          if scene.dialogs ≠ [] then e.showDialog env 0 else e

/-- `_is_delay_active` (`engine.py` 2923–2928). -/
def Engine.isDelayActive (e : Engine) (env : Env) : Bool :=
  match e.dialog_delay_start with
  | none => false
  | some st =>
      if e.dialog_delay_duration ≤ 0 then false
      else decide ((env.now - st) / 1000 < e.dialog_delay_duration)

/-- `_is_text_animation_blocking` (`engine.py` 3143–3148). -/
def Engine.isTextAnimationBlocking (e : Engine) : Bool :=
  e.texts_on_screen.any (fun t => t.is_blocking)

/-- `_next_dialog` (`engine.py` 2930–2962).  Note `elif
self.current_scene.next_scene_id:` — a `None` or empty next-scene id
falls through to the end screen. -/
def Engine.nextDialog (e : Engine) (env : Env) : Engine :=
  match e.current_scene with
  | none => e
  | some scene =>
      if e.isTextAnimationBlocking then e
      else if e.isDelayActive env then e
      else if e.dialog_box.is_complete = false ∧ e.dialog_is_delay_only = false then
        { e with dialog_box := e.dialog_box.skip_animation }
      else
        let next_index := e.current_dialog_index + 1
        if next_index < scene.dialogs.length then e.showDialog env next_index
        else if scene.choices ≠ [] then
          { e with state := "choice",
                   choice_menu := e.choice_menu.set_choices scene.choices }
        else
          match scene.next_scene_id with
          | some nid =>
              if nid ≠ "" then e.goToScene env nid else { e with state := "end" }
          | none => { e with state := "end" }

/-- `_show_end_screen` (`engine.py` 2964–2966). -/
def Engine.showEndScreen (e : Engine) : Engine :=
  { e with state := "end" }

/-- `_open_pause_menu` (`engine.py` 3086–3091); the screenshot only
feeds the (unmodelled) pause-menu background. -/
def Engine.openPauseMenu (e : Engine) : Engine :=
  { e with state_before_pause := e.state, pause_active := true }

/-- The `"resume"` action of `handle_events` (`engine.py` 2981–2982)
together with the pause menu closing itself. -/
def Engine.resumeFromPause (e : Engine) : Engine :=
  { e with pause_active := false, state := e.state_before_pause }

/-- `VisualNovelEngine.update` (`engine.py` 3150–3182): early-return
while the pause menu is active; tick the typewriter and the delay-only
auto-advance in `dialog`; outside the menu, tick keyframe animations and
text overlays, chaining the next overlay when one completes.
(`pause_menu.update` and `main_menu.update` mutate only menu-internal
hover state, which is not modelled.) -/
def Engine.update (e : Engine) (env : Env) : Engine :=
  if e.pause_active then e
  else
    let e :=
      if e.state = "menu" then e
      else if e.state = "dialog" then
        let e := { e with dialog_box := e.dialog_box.update }
        if e.dialog_is_delay_only = true ∧ e.isDelayActive env = false then
          e.nextDialog env
        else e
      else e
    if e.state ≠ "menu" then
      let piu := e.animation_player.update env.now
                   e.characters_on_screen e.images_on_screen
      let e := { e with animation_player := piu.1,
                        characters_on_screen := piu.2.1,
                        images_on_screen := piu.2.2 }
      let pairs := e.texts_on_screen.map (fun t => (t, t.tick env.now))
      let any_completed := pairs.any
        (fun w => w.1.animation_complete = false ∧ w.2.animation_complete = true)
      let e := { e with texts_on_screen := pairs.map (·.2) }
      if any_completed then
        { e with texts_on_screen := startNextText env.now e.texts_on_screen }
      else e
    else e

/-- `_save_game` (`engine.py` 3093–3107): `scene.name or scene.id`, then
`_load_saves_info` refreshes the cache from disk. -/
def Engine.saveGame (e : Engine) (slot_id timestamp : String) : Engine :=
  match e.current_scene with
  | none => e
  | some s =>
      let sm := e.save_manager.save_game slot_id s.id
                  (if s.name ≠ "" then s.name else s.id)
                  e.current_dialog_index timestamp none
      { e with save_manager := { sm with slots := sm.files } }

/-- `_load_game` (`engine.py` 3109–3125): go to the saved scene, clamp
the saved index with `min(dialog_index, len(dialogs) - 1)` (0 when the
scene has no dialogs), re-show that line, close the pause menu. -/
def Engine.loadGame (e : Engine) (env : Env) (slot_id : String) : Engine :=
  match e.save_manager.load_game slot_id with
  | none => e
  | some r =>
      if r.scene_id = "" then e
      else
        let e := e.goToScene env r.scene_id
        let bound : ℕ :=
          match e.current_scene with
          | some s => if s.dialogs ≠ [] then s.dialogs.length - 1 else 0
          | none => 0
        let e := { e with current_dialog_index := min r.dialog_index bound }
        let e :=
          match e.current_scene with
          | some s =>
              if s.dialogs ≠ [] then e.showDialog env e.current_dialog_index else e
          | none => e
        { e with pause_active := false, state := "dialog" }

/-! ## Helper lemmas -/

theorem assocGet_assocSet {β : Type} (l : List (String × β)) (k : String) (v : β) :
    assocGet (assocSet l k v) k = some v := by
  induction l with
  | nil => simp [assocSet, assocGet]
  | cons hd tl ih =>
      obtain ⟨k', v'⟩ := hd
      by_cases h : k' = k
      · simp [assocSet, assocGet, h]
      · simp [assocSet, assocGet, h, ih]

theorem assocDel_single {β : Type} (k : String) (v : β) :
    assocDel [(k, v)] k = [] := by
  simp [assocDel]

/-! ## Claim C7 -/

/-- Claim C7: for every slot id, scene id, scene name and dialog index,
`SaveManager.load_game` immediately after `SaveManager.save_game` on the
same slot returns a record whose `scene_id` and `dialog_index` equal the
values that were saved. -/
theorem c7_save_load_roundtrip (sm : SaveManager)
    (slot_id scene_id scene_name : String) (dialog_index : ℕ)
    (timestamp : String) (game_state : Option SaveBlob) :
    ((sm.save_game slot_id scene_id scene_name dialog_index timestamp
        game_state).load_game slot_id).map
          (fun r => (r.scene_id, r.dialog_index))
      = some (scene_id, dialog_index) := by
  simp [SaveManager.save_game, SaveManager.load_game, assocGet_assocSet]

/-! ## Claim C8 -/

/-- Claim C8: for every engine state and every scene id not present in
the loaded story, `go_to_scene` leaves the entire engine state unchanged
(the function is total, so the Python code's only effect — the log line —
is no crash). -/
theorem c8_goToScene_unknown_scene (e : Engine) (env : Env) (st : Story)
    (scene_id : String) (hst : e.story = some st)
    (hmiss : st.get_scene scene_id = none) :
    e.goToScene env scene_id = e := by
  unfold Engine.goToScene
  rw [hst]
  simp [hmiss]

/-- Witness for C8 at a concrete engine, story and scene id. -/
theorem c8_witness :
    Engine.goToScene { Engine.init with story := some {} }
        { fs := fun _ => false, now := 0 } "missing"
      = { Engine.init with story := some {} } :=
  c8_goToScene_unknown_scene _ _ {} "missing" rfl rfl

/-! ## Claim C4: typewriter timing -/

theorem DialogBox.update_full_text (b : DialogBox) :
    b.update.full_text = b.full_text := by
  unfold DialogBox.update
  split
  · rfl
  · dsimp only
    split <;> rfl

theorem DialogBox.update_text_speed (b : DialogBox) :
    b.update.text_speed = b.text_speed := by
  unfold DialogBox.update
  split
  · rfl
  · dsimp only
    split <;> rfl

theorem DialogBox.update_of_complete (b : DialogBox) (h : b.is_complete = true) :
    b.update = b := by
  unfold DialogBox.update
  simp [h]

theorem DialogBox.update_complete_iff (b : DialogBox) (h : b.is_complete = false) :
    b.update.is_complete = true
      ↔ (b.full_text.length : ℚ) ≤ b.char_index + b.text_speed := by
  unfold DialogBox.update
  rw [h]
  simp only [Bool.false_eq_true, if_false]
  split
  · simp_all
  · simp_all

theorem DialogBox.update_char_index (b : DialogBox) (h : b.is_complete = false)
    (hlt : b.char_index + b.text_speed < (b.full_text.length : ℚ)) :
    b.update.char_index = b.char_index + b.text_speed := by
  unfold DialogBox.update
  rw [h]
  simp only [Bool.false_eq_true, if_false]
  rw [if_neg (not_le.mpr hlt)]

theorem string_len_pos (s : String) (h : s ≠ "") : 0 < s.length := by
  rcases s with ⟨l⟩
  cases l with
  | nil => exact absurd rfl h
  | cons c cs => simp [String.length]

/-- The typewriter with positive length `L`, positive speed and a fresh
cursor is complete after `m` frames exactly when `m * speed` has reached
`L`. -/
theorem dialog_iterate_complete (b : DialogBox) (L speed : ℚ)
    (hL : 0 < L) (hs : 0 < speed)
    (hfull : (b.full_text.length : ℚ) = L)
    (hspeed : b.text_speed = speed)
    (hchar : b.char_index = 0) (hcomp : b.is_complete = false) :
    ∀ m : ℕ,
      ((Nat.iterate DialogBox.update m b).is_complete = true ↔ L ≤ (m : ℚ) * speed) := by
  have key : ∀ m : ℕ,
      ((Nat.iterate DialogBox.update m b).full_text = b.full_text
        ∧ (Nat.iterate DialogBox.update m b).text_speed = speed)
      ∧ ((m : ℚ) * speed < L →
          (Nat.iterate DialogBox.update m b).is_complete = false
          ∧ (Nat.iterate DialogBox.update m b).char_index = m * speed)
      ∧ (L ≤ (m : ℚ) * speed → (Nat.iterate DialogBox.update m b).is_complete = true) := by
    intro m
    induction m with
    | zero =>
        refine ⟨⟨rfl, hspeed⟩, ?_, ?_⟩
        · intro _
          simpa using ⟨hcomp, hchar⟩
        · intro hle
          simp at hle
          exact absurd (lt_of_lt_of_le hL hle) (by norm_num)
    | succ n ih =>
        obtain ⟨⟨hft, hts⟩, hlt, hge⟩ := ih
        have hstep : Nat.iterate DialogBox.update (n + 1) b
            = DialogBox.update (Nat.iterate DialogBox.update n b) := by
          rw [Function.iterate_succ_apply']
        by_cases hc : L ≤ (n : ℚ) * speed
        · have hcompl := hge hc
          have hnext : L ≤ ((n : ℚ) + 1) * speed := by nlinarith
          have hfix := DialogBox.update_of_complete _ hcompl
          rw [hstep, hfix]
          push_cast
          refine ⟨⟨hft, hts⟩, fun hlt' => absurd hnext (not_le.mpr hlt'),
                  fun _ => hcompl⟩
        · push_neg at hc
          obtain ⟨hnc, hci⟩ := hlt hc
          have hlen : ((Nat.iterate DialogBox.update n b).full_text.length : ℚ) = L := by
            rw [hft, hfull]
          have hsum : (Nat.iterate DialogBox.update n b).char_index
              + (Nat.iterate DialogBox.update n b).text_speed
              = ((n : ℚ) + 1) * speed := by
            rw [hci, hts]; ring
          rw [hstep]
          push_cast
          refine ⟨⟨by rw [DialogBox.update_full_text]; exact hft,
                   by rw [DialogBox.update_text_speed]; exact hts⟩, ?_, ?_⟩
          · intro hlt'
            have hiff := DialogBox.update_complete_iff _ hnc
            rw [hlen, hsum] at hiff
            constructor
            · rcases Bool.eq_false_or_eq_true
                  ((Nat.iterate DialogBox.update n b).update.is_complete) with hT | hF
              · exact absurd (hiff.mp hT) (not_le.mpr hlt')
              · exact hF
            · rw [DialogBox.update_char_index _ hnc (by rw [hlen, hsum]; exact hlt'),
                  hsum]
          · intro hle
            have hiff := DialogBox.update_complete_iff _ hnc
            rw [hlen, hsum] at hiff
            exact hiff.mpr hle
  intro m
  obtain ⟨⟨hft, hts⟩, hlt, hge⟩ := key m
  constructor
  · intro hT
    by_contra hc
    push_neg at hc
    exact absurd hT (by simp [(hlt hc).1])
  · exact hge

/-- Counterexample to C4 as stated ("for every dialog text"): with the
empty text and duration `d = 1`, `set_dialog` substitutes a text length
of 1 (`text_len = len(text) if text else 1`, `engine.py` 111), so the
per-frame increment is `1/60`, not `len(text)/(d*60) = 0`, and the box
is already complete after the very first `update` call rather than
after `⌈d*60⌉ = 60` calls. -/
theorem c4_counterexample :
    (DialogBox.init.set_dialog "n" "" "#FFFFFF" none (some 1)).text_speed = 1/60
    ∧ ((("" : String).length : ℚ) / (1 * 60) = 0)
    ∧ ((1 : ℚ)/60 ≠ 0)
    ∧ (Nat.iterate DialogBox.update 1
        (DialogBox.init.set_dialog "n" "" "#FFFFFF" none (some 1))).is_complete
        = true
    ∧ ⌈(1 : ℚ) * 60⌉₊ = 60
    ∧ (1 : ℕ) ≠ 60 := by
  refine ⟨?_, by norm_num, by norm_num, ?_, ?_, by norm_num⟩
  · norm_num +decide [DialogBox.set_dialog]
  · norm_num +decide [DialogBox.set_dialog, DialogBox.update, DialogBox.init]
  · norm_num

/-- Claim C4 (amended): for every NON-EMPTY dialog text and explicit
typing duration `d > 0`, `set_dialog` sets the per-frame reveal
increment to `len(text) / (d * 60)`, and under the 60 ticks-per-second
update model the typewriter is complete after `m` frames iff
`m ≥ d * 60`; in particular the number of `update` calls needed to
reach `is_complete` is `⌈d * 60⌉` and it is not complete on any earlier
frame.  (For the empty text the code substitutes a length of 1, giving
increment `1/(d*60)`, and the zero-length text is fully revealed on the
first `update` call — see the counterexample.) -/
theorem c4_typewriter_duration (b : DialogBox) (name text nc : String)
    (nbg : Option String) (d : ℚ) (ht : text ≠ "") (hd : 0 < d) :
    (b.set_dialog name text nc nbg (some d)).text_speed
        = (text.length : ℚ) / (d * 60)
    ∧ (∀ m : ℕ,
        ((Nat.iterate DialogBox.update m
            (b.set_dialog name text nc nbg (some d))).is_complete = true
          ↔ d * 60 ≤ (m : ℚ)))
    ∧ (Nat.iterate DialogBox.update ⌈d * 60⌉₊
        (b.set_dialog name text nc nbg (some d))).is_complete = true
    ∧ ∀ m : ℕ, m < ⌈d * 60⌉₊ →
        (Nat.iterate DialogBox.update m
          (b.set_dialog name text nc nbg (some d))).is_complete = false := by
  have hd60 : (0 : ℚ) < d * 60 := by positivity
  have hL : (0 : ℚ) < (text.length : ℚ) := by
    exact_mod_cast string_len_pos text ht
  have hspeed : (b.set_dialog name text nc nbg (some d)).text_speed
      = (text.length : ℚ) / (d * 60) := by
    unfold DialogBox.set_dialog
    simp [ht, ne_of_gt hd, hd60]
  have hiffall : ∀ m : ℕ,
      ((Nat.iterate DialogBox.update m
          (b.set_dialog name text nc nbg (some d))).is_complete = true
        ↔ d * 60 ≤ (m : ℚ)) := by
    intro m
    have hfull : ((b.set_dialog name text nc nbg (some d)).full_text.length : ℚ)
        = (text.length : ℚ) := by
      unfold DialogBox.set_dialog
      simp
    have hchar : (b.set_dialog name text nc nbg (some d)).char_index = 0 := by
      unfold DialogBox.set_dialog
      simp
    have hcomp : (b.set_dialog name text nc nbg (some d)).is_complete = false := by
      unfold DialogBox.set_dialog
      simp
    have hs : (0 : ℚ) < (text.length : ℚ) / (d * 60) := by positivity
    have hiter := dialog_iterate_complete _ (text.length : ℚ)
        ((text.length : ℚ) / (d * 60)) hL hs hfull hspeed hchar hcomp m
    rw [hiter]
    have hrw : (m : ℚ) * ((text.length : ℚ) / (d * 60))
        = (m : ℚ) * (text.length : ℚ) / (d * 60) := by ring
    rw [hrw, le_div_iff₀ hd60]
    constructor
    · intro h'
      nlinarith
    · intro h'
      nlinarith
  refine ⟨hspeed, hiffall, ?_, ?_⟩
  · exact (hiffall _).mpr (Nat.le_ceil _)
  · intro m hm
    have hlt : (m : ℚ) < d * 60 := Nat.lt_ceil.mp hm
    rcases Bool.eq_false_or_eq_true
        ((Nat.iterate DialogBox.update m
          (b.set_dialog name text nc nbg (some d))).is_complete) with hT | hF
    · exact absurd ((hiffall m).mp hT) (not_le.mpr hlt)
    · exact hF

/-- Witness for C4: text `"hi"`, duration `1` second; the box is
complete after 60 frames. -/
theorem c4_witness :
    (Nat.iterate DialogBox.update 60
      (DialogBox.init.set_dialog "n" "hi" "#FFFFFF" none (some 1))).is_complete
      = true :=
  ((c4_typewriter_duration DialogBox.init "n" "hi" "#FFFFFF" none 1
      (by decide) (by norm_num)).2.1 60).mpr (by norm_num)

/-! ## Claim C5: looping tracks are periodic -/

theorem pyFMod_add_nat_mul (a b : ℚ) (hb : b ≠ 0) (n : ℕ) :
    pyFMod (a + n * b) b = pyFMod a b := by
  unfold pyFMod
  have hdiv : (a + n * b) / b = a / b + (n : ℚ) := by
    field_simp
  rw [hdiv, Int.floor_add_nat]
  push_cast
  ring

/-- Claim C5: for every looping animation track whose keyframes span a
total duration `D > 0` (the time of the last keyframe), every elapsed
time `t ≥ 0` and every `n : ℕ`, the track evaluates to the identical
interpolated pose at `t` and at `t + n * D`. -/
theorem c5_loop_periodic (k : Keyframe) (t : List Keyframe) (D : ℚ)
    (hD : D = (trackLast k t).time) (hpos : 0 < D) (tm : ℚ) (htm : 0 ≤ tm)
    (n : ℕ) :
    evalTrackNE k t true (tm + n * D) = evalTrackNE k t true tm := by
  subst hD
  have hcond : (true = true ∧ 0 < (trackLast k t).time) := ⟨rfl, hpos⟩
  have hmod : pyFMod (tm + n * (trackLast k t).time) (trackLast k t).time
      = pyFMod tm (trackLast k t).time :=
    pyFMod_add_nat_mul tm (trackLast k t).time (ne_of_gt hpos) n
  unfold evalTrackNE
  dsimp only
  rw [if_pos hcond, if_pos hcond, hmod]

/-- Witness for C5: a two-keyframe loop of span `2` evaluated at `1`
and `1 + 3·2`. -/
theorem c5_witness :
    evalTrackNE ⟨0, 0, 0, 1, 0, 1⟩ [⟨2, 1, 0, 1, 0, 1⟩] true (1 + 3 * 2)
      = evalTrackNE ⟨0, 0, 0, 1, 0, 1⟩ [⟨2, 1, 0, 1, 0, 1⟩] true 1 :=
  c5_loop_periodic ⟨0, 0, 0, 1, 0, 1⟩ [⟨2, 1, 0, 1, 0, 1⟩] 2 (by rfl)
    (by norm_num) 1 (by norm_num) 3

/-! ## Claim C6: non-looping tracks end on the last keyframe and drop -/

theorem interp_self (kf : Keyframe) (e : ℚ) : interp kf kf e = kf.pose := by
  unfold interp Keyframe.pose
  simp

theorem bracketAux_all_le (e : ℚ) :
    ∀ (l : List Keyframe) (prev next : Keyframe)
      (_h : ∀ kf ∈ l, kf.time ≤ e) (hl : l ≠ []),
      bracketAux e prev next l
        = (l.getLast hl, if l.length = 1 then next else l.getLast hl) := by
  intro l
  induction l with
  | nil => intro prev next h hl; exact absurd rfl hl
  | cons x xs ih =>
      intro prev next h hl
      cases xs with
      | nil =>
          simp [bracketAux, h x (by simp)]
      | cons y rest =>
          have hx : x.time ≤ e := h x (by simp)
          rw [bracketAux, if_pos hx]
          have hy : (y :: rest) ≠ [] := List.cons_ne_nil y rest
          rw [ih x y (fun kf hk => h kf (List.mem_cons_of_mem x hk)) hy]
          have hlast : (x :: y :: rest).getLast hl = (y :: rest).getLast hy :=
            List.getLast_cons hy
          cases rest with
          | nil => simp [hlast]
          | cons z rest2 => simp [hlast]

/-- Claim C6: a non-looping track whose elapsed time is strictly past
its last keyframe's time applies exactly the last keyframe's pose to its
(character) target in `AnimationPlayer.update`, the track is removed
from the active set by that same evaluation, and subsequent updates of
the resulting player no longer affect any target. -/
theorem c6_nonloop_past_end (p : AnimationPlayer) (anim_id : String)
    (tr : ActiveTrack) (k : Keyframe) (t : List Keyframe) (now : ℚ)
    (sprites : List CharacterSprite) (images : List ImageSprite)
    (hactive : p.active_animations = [(anim_id, tr)])
    (hkf : tr.keyframes = k :: t)
    (hloop : tr.loop = false)
    (hsorted : ∀ kf ∈ k :: t, kf.time ≤ (trackLast k t).time)
    (hpast : (trackLast k t).time < (now - tr.start_time) / 1000)
    (himg : anim_id.startsWith "img_" = false) :
    p.update now sprites images
      = ({ p with active_animations := [] },
         applyPoseToChars sprites anim_id (trackLast k t).pose, images)
    ∧ ∀ (now2 : ℚ) (cs2 : List CharacterSprite) (is2 : List ImageSprite),
        AnimationPlayer.update { p with active_animations := [] } now2 cs2 is2
          = ({ p with active_animations := [] }, cs2, is2) := by
  obtain ⟨st, kfs, lp⟩ := tr
  dsimp only at hkf hloop hpast hactive
  subst hkf
  subst hloop
  constructor
  · have hall : ∀ kf ∈ k :: t, kf.time ≤ (now - st) / 1000 :=
      fun kf hk => le_trans (hsorted kf hk) (le_of_lt hpast)
    have hbr := bracketAux_all_le ((now - st) / 1000) (k :: t) k
        (trackLast k t) hall (List.cons_ne_nil k t)
    have heval : evalTrackNE k t false ((now - st) / 1000)
        = (trackLast k t).pose := by
      unfold evalTrackNE
      dsimp only
      rw [if_neg (by simp), hbr]
      show interp ((k :: t).getLast (List.cons_ne_nil k t))
            (if (k :: t).length = 1 then trackLast k t
             else (k :: t).getLast (List.cons_ne_nil k t)) _ = _
      have : ((k :: t).getLast (List.cons_ne_nil k t)) = trackLast k t := rfl
      rw [this, ite_self]
      exact interp_self _ _
    unfold AnimationPlayer.update
    rw [hactive, List.foldl_cons, List.foldl_nil]
    unfold animStep
    dsimp only
    rw [heval, himg]
    rw [if_pos ⟨rfl, hpast⟩, hactive, assocDel_single]
    simp
  · intro now2 cs2 is2
    rfl

/-- Witness for C6: a single-keyframe non-looping track past its end. -/
theorem c6_witness :
    AnimationPlayer.update
        ⟨[], [("a", ⟨0, [⟨0, 1, 2, 3, 4, 1⟩], false⟩)]⟩ 1000
        [{ CharacterSprite.init with character_id := some "a" }] []
      = (⟨[], []⟩,
         applyPoseToChars
           [{ CharacterSprite.init with character_id := some "a" }] "a"
           (trackLast ⟨0, 1, 2, 3, 4, 1⟩ []).pose, []) :=
  (c6_nonloop_past_end ⟨[], [("a", ⟨0, [⟨0, 1, 2, 3, 4, 1⟩], false⟩)]⟩ "a"
      ⟨0, [⟨0, 1, 2, 3, 4, 1⟩], false⟩ ⟨0, 1, 2, 3, 4, 1⟩ [] 1000
      [{ CharacterSprite.init with character_id := some "a" }] []
      rfl rfl rfl (by intro kf hk; simp at hk; simp [hk, trackLast])
      (by norm_num [trackLast]) (by rfl)).1

/-! ## Claim C9: choice-menu selection invariant -/

/-- The operations the engine performs on the choice menu. -/
inductive MenuOp where
  | setChoices (cs : List Choice)
  | input (ev : PyEvent)

def ChoiceMenu.applyOp (m : ChoiceMenu) : MenuOp → ChoiceMenu
  | .setChoices cs => m.set_choices cs
  | .input ev => (m.handle_input ev).1

def ChoiceMenu.runOps (m : ChoiceMenu) (ops : List MenuOp) : ChoiceMenu :=
  ops.foldl ChoiceMenu.applyOp m

/-- The inductive invariant of the choice menu: active iff non-empty,
and the selection is a valid index whenever the list is non-empty. -/
def MenuInv (m : ChoiceMenu) : Prop :=
  (m.is_active = true ↔ m.choices ≠ [])
  ∧ (m.choices ≠ [] →
      0 ≤ m.selected_index ∧ m.selected_index < (m.choices.length : ℤ))

theorem menuInv_init (w h : ℤ) : MenuInv (ChoiceMenu.init w h) := by
  constructor
  · simp [ChoiceMenu.init]
  · intro h'
    exact absurd rfl h'

theorem menuInv_set (m : ChoiceMenu) (cs : List Choice) :
    MenuInv (m.set_choices cs) := by
  constructor
  · simp [ChoiceMenu.set_choices, List.length_pos]
  · intro h'
    refine ⟨by simp [ChoiceMenu.set_choices], ?_⟩
    simp only [ChoiceMenu.set_choices]
    exact_mod_cast List.length_pos.mpr h'

theorem menuInv_input (m : ChoiceMenu) (hm : MenuInv m) (ev : PyEvent) :
    MenuInv (m.handle_input ev).1 := by
  obtain ⟨hiff, hsel⟩ := hm
  by_cases hact : m.is_active = true
  · have hne : m.choices ≠ [] := hiff.mp hact
    have hlen : (0 : ℤ) < (m.choices.length : ℤ) := by
      exact_mod_cast List.length_pos.mpr hne
    unfold ChoiceMenu.handle_input
    rw [hact]
    simp only [Bool.true_eq_false, if_false]
    cases ev with
    | keyDown key =>
        cases key with
        | up =>
            refine ⟨by simpa using hne, fun _ => ?_⟩
            constructor
            · exact Int.emod_nonneg _ (ne_of_gt hlen)
            · exact Int.emod_lt_of_pos _ hlen
        | down =>
            refine ⟨by simpa using hne, fun _ => ?_⟩
            constructor
            · exact Int.emod_nonneg _ (ne_of_gt hlen)
            · exact Int.emod_lt_of_pos _ hlen
        | ret => exact ⟨hiff, hsel⟩
        | space => exact ⟨hiff, hsel⟩
        | other => exact ⟨hiff, hsel⟩
    | mouseMotion pos =>
        dsimp only
        unfold ChoiceMenu.update_hover
        split
        · rename_i i hfind
          have hi : i ∈ List.range m.choices.length :=
            List.mem_of_find?_eq_some hfind
          have hi2 : i < m.choices.length := List.mem_range.mp hi
          refine ⟨hiff, fun _ => ?_⟩
          constructor
          · exact Int.ofNat_nonneg i
          · exact Int.ofNat_lt.mpr hi2
        · exact ⟨hiff, hsel⟩
    | mouseButtonDown button pos =>
        dsimp only
        split
        · cases (m.get_choice_at_pos pos) with
          | none => exact ⟨hiff, hsel⟩
          | some idx => exact ⟨hiff, hsel⟩
        · exact ⟨hiff, hsel⟩
    | other => exact ⟨hiff, hsel⟩
  · have hfalse : m.is_active = false := by
      cases hb : m.is_active
      · rfl
      · exact absurd hb hact
    unfold ChoiceMenu.handle_input
    rw [hfalse]
    simp only [if_true]
    exact ⟨hiff, hsel⟩

theorem menuInv_applyOp (m : ChoiceMenu) (hm : MenuInv m) (op : MenuOp) :
    MenuInv (m.applyOp op) := by
  cases op with
  | setChoices cs => exact menuInv_set m cs
  | input ev => exact menuInv_input m hm ev

theorem menuInv_runOps (ops : List MenuOp) :
    ∀ (m : ChoiceMenu), MenuInv m → MenuInv (m.runOps ops) := by
  induction ops with
  | nil => intro m hm; exact hm
  | cons op rest ih =>
      intro m hm
      exact ih _ (menuInv_applyOp m hm op)

/-- Claim C9: after any sequence of `set_choices` and `handle_input`
calls from the initial menu, the selected index stays within
`0 ≤ i < len(choices)` whenever the choice list is non-empty, and with an
empty choice list the menu is inactive and `handle_input` never returns a
target scene id. -/
theorem c9_choice_menu_invariant (w h : ℤ) (ops : List MenuOp) :
    (((ChoiceMenu.init w h).runOps ops).choices ≠ [] →
        0 ≤ ((ChoiceMenu.init w h).runOps ops).selected_index
        ∧ ((ChoiceMenu.init w h).runOps ops).selected_index
            < ((((ChoiceMenu.init w h).runOps ops).choices.length : ℤ)))
    ∧ (((ChoiceMenu.init w h).runOps ops).choices = [] →
        ((ChoiceMenu.init w h).runOps ops).is_active = false
        ∧ ∀ ev, (((ChoiceMenu.init w h).runOps ops).handle_input ev).2 = none) := by
  obtain ⟨hiff, hsel⟩ := menuInv_runOps ops _ (menuInv_init w h)
  refine ⟨hsel, fun hemp => ?_⟩
  have hfalse : ((ChoiceMenu.init w h).runOps ops).is_active = false := by
    cases hb : ((ChoiceMenu.init w h).runOps ops).is_active
    · rfl
    · exact absurd (hiff.mp hb) (by simp [hemp])
  refine ⟨hfalse, fun ev => ?_⟩
  unfold ChoiceMenu.handle_input
  rw [hfalse]
  simp

/-- Witness for C9: after setting two choices and pressing Up, the
selection is still a valid index. -/
theorem c9_witness :
    0 ≤ ((ChoiceMenu.init 1280 720).runOps
        [MenuOp.setChoices [⟨"Go left", "scene_L"⟩, ⟨"Go right", "scene_R"⟩],
         MenuOp.input (PyEvent.keyDown GKey.up)]).selected_index
    ∧ ((ChoiceMenu.init 1280 720).runOps
        [MenuOp.setChoices [⟨"Go left", "scene_L"⟩, ⟨"Go right", "scene_R"⟩],
         MenuOp.input (PyEvent.keyDown GKey.up)]).selected_index
      < (((ChoiceMenu.init 1280 720).runOps
        [MenuOp.setChoices [⟨"Go left", "scene_L"⟩, ⟨"Go right", "scene_R"⟩],
         MenuOp.input (PyEvent.keyDown GKey.up)]).choices.length : ℤ) :=
  (c9_choice_menu_invariant 1280 720
      [MenuOp.setChoices [⟨"Go left", "scene_L"⟩, ⟨"Go right", "scene_R"⟩],
       MenuOp.input (PyEvent.keyDown GKey.up)]).1 (by decide)

/-! ## Engine frame lemmas -/

/-- `_show_speaking_character` only touches `characters_on_screen`. -/
theorem showSpeaking_chars_only (e : Engine) (env : Env) (ch : Character)
    (emotion : String) (position : Option PosOverride) :
    e.showSpeakingCharacter env ch emotion position
      = { e with characters_on_screen :=
            (e.showSpeakingCharacter env ch emotion position).characters_on_screen } := by
  unfold Engine.showSpeakingCharacter
  dsimp only
  repeat' split
  all_goals rfl

/-- `_show_dialog` only touches the dialog/delay/sound/animation state
and the speaking character's sprite. -/
theorem showDialog_frame (e : Engine) (env : Env) (i : ℕ) :
    e.showDialog env i
      = { e with
          events := (e.showDialog env i).events,
          dialog_delay_start := (e.showDialog env i).dialog_delay_start,
          dialog_delay_duration := (e.showDialog env i).dialog_delay_duration,
          dialog_is_delay_only := (e.showDialog env i).dialog_is_delay_only,
          animation_player := (e.showDialog env i).animation_player,
          characters_on_screen := (e.showDialog env i).characters_on_screen,
          dialog_box := (e.showDialog env i).dialog_box,
          current_dialog_index := (e.showDialog env i).current_dialog_index } := by
  unfold Engine.showDialog
  dsimp only
  repeat' split
  all_goals try rfl
  all_goals (rw [showSpeaking_chars_only]; rfl)

theorem showDialog_current_scene (e : Engine) (env : Env) (i : ℕ) :
    (e.showDialog env i).current_scene = e.current_scene := by
  conv_lhs => rw [showDialog_frame]

theorem showDialog_story (e : Engine) (env : Env) (i : ℕ) :
    (e.showDialog env i).story = e.story := by
  conv_lhs => rw [showDialog_frame]

theorem showDialog_state (e : Engine) (env : Env) (i : ℕ) :
    (e.showDialog env i).state = e.state := by
  conv_lhs => rw [showDialog_frame]

theorem showDialog_texts (e : Engine) (env : Env) (i : ℕ) :
    (e.showDialog env i).texts_on_screen = e.texts_on_screen := by
  conv_lhs => rw [showDialog_frame]

theorem showDialog_save_manager (e : Engine) (env : Env) (i : ℕ) :
    (e.showDialog env i).save_manager = e.save_manager := by
  conv_lhs => rw [showDialog_frame]

/-- `_show_dialog` with an out-of-range index is the identity
(`engine.py` 2739–2740). -/
theorem showDialog_out_of_range (e : Engine) (env : Env) (i : ℕ) (s : Scene)
    (hsc : e.current_scene = some s) (hge : s.dialogs.length ≤ i) :
    e.showDialog env i = e := by
  unfold Engine.showDialog
  rw [hsc]
  have hnone : s.dialogs.get? i = none := List.get?_eq_none.mpr hge
  dsimp only
  rw [hnone]

/-- `_show_dialog` with an in-range index lands on that index. -/
theorem showDialog_index (e : Engine) (env : Env) (i : ℕ) (s : Scene)
    (d : DialogLine) (hsc : e.current_scene = some s)
    (hget : s.dialogs.get? i = some d) :
    (e.showDialog env i).current_dialog_index = i := by
  unfold Engine.showDialog
  rw [hsc]
  dsimp only
  rw [hget]
  dsimp only
  repeat' split
  all_goals try rfl
  all_goals (rw [showSpeaking_chars_only]; rfl)

/-- What `go_to_scene` guarantees when the scene id resolves: the scene
reference, dialog index 0, `dialog` state, rebuilt overlays; and when the
scene has no dialog lines, the dialog box and delay gate are untouched. -/
theorem goToScene_found (e : Engine) (env : Env) (st : Story) (sid : String)
    (scene : Scene) (hst : e.story = some st)
    (hsc : st.get_scene sid = some scene) :
    (e.goToScene env sid).current_scene = some scene
    ∧ (e.goToScene env sid).story = e.story
    ∧ (e.goToScene env sid).state = "dialog"
    ∧ (e.goToScene env sid).current_dialog_index = 0
    ∧ (e.goToScene env sid).texts_on_screen = loadTexts env.now scene.texts_on_screen
    ∧ (e.goToScene env sid).save_manager = e.save_manager
    ∧ (scene.dialogs = [] →
        (e.goToScene env sid).dialog_box = e.dialog_box
        ∧ (e.goToScene env sid).dialog_delay_start = e.dialog_delay_start
        ∧ (e.goToScene env sid).dialog_delay_duration = e.dialog_delay_duration
        ∧ (e.goToScene env sid).dialog_is_delay_only = e.dialog_is_delay_only) := by
  unfold Engine.goToScene
  rw [hst]
  dsimp only
  rw [hsc]
  dsimp only
  split
  · rename_i hne
    have hget : ∃ d, scene.dialogs.get? 0 = some d := by
      cases hd : scene.dialogs with
      | nil => exact absurd hd hne
      | cons d rest => exact ⟨d, rfl⟩
    obtain ⟨d, hget⟩ := hget
    refine ⟨?_, ?_, ?_, ?_, ?_, ?_, fun hemp => absurd hemp hne⟩
    · rw [showDialog_current_scene]
      unfold Engine.playMusicE Engine.loadBackgroundE Engine.stopMusicE
        Engine.stopDialogSoundE
      simp only [apply_ite Engine.current_scene, ite_self]
    · rw [showDialog_story]
      unfold Engine.playMusicE Engine.loadBackgroundE Engine.stopMusicE
        Engine.stopDialogSoundE
      simp only [apply_ite Engine.story, ite_self]
      exact hst
    · rw [showDialog_state]
      unfold Engine.playMusicE Engine.loadBackgroundE Engine.stopMusicE
        Engine.stopDialogSoundE
      simp only [apply_ite Engine.state, ite_self]
    · refine showDialog_index _ env 0 scene d ?_ hget
      unfold Engine.playMusicE Engine.loadBackgroundE Engine.stopMusicE
        Engine.stopDialogSoundE
      simp only [apply_ite Engine.current_scene, ite_self]
    · rw [showDialog_texts]
      unfold Engine.playMusicE Engine.loadBackgroundE Engine.stopMusicE
        Engine.stopDialogSoundE
      simp only [apply_ite Engine.texts_on_screen, ite_self]
    · rw [showDialog_save_manager]
      unfold Engine.playMusicE Engine.loadBackgroundE Engine.stopMusicE
        Engine.stopDialogSoundE
      simp only [apply_ite Engine.save_manager, ite_self]
  · refine ⟨?_, ?_, ?_, ?_, ?_, ?_, fun _ => ⟨?_, ?_, ?_, ?_⟩⟩
    · unfold Engine.playMusicE Engine.loadBackgroundE Engine.stopMusicE
        Engine.stopDialogSoundE
      simp only [apply_ite Engine.current_scene, ite_self]
    · unfold Engine.playMusicE Engine.loadBackgroundE Engine.stopMusicE
        Engine.stopDialogSoundE
      simp only [apply_ite Engine.story, ite_self]
      exact hst
    · unfold Engine.playMusicE Engine.loadBackgroundE Engine.stopMusicE
        Engine.stopDialogSoundE
      simp only [apply_ite Engine.state, ite_self]
    · unfold Engine.playMusicE Engine.loadBackgroundE Engine.stopMusicE
        Engine.stopDialogSoundE
      simp only [apply_ite Engine.current_dialog_index, ite_self]
    · unfold Engine.playMusicE Engine.loadBackgroundE Engine.stopMusicE
        Engine.stopDialogSoundE
      simp only [apply_ite Engine.texts_on_screen, ite_self]
    · unfold Engine.playMusicE Engine.loadBackgroundE Engine.stopMusicE
        Engine.stopDialogSoundE
      simp only [apply_ite Engine.save_manager, ite_self]
    · unfold Engine.playMusicE Engine.loadBackgroundE Engine.stopMusicE
        Engine.stopDialogSoundE
      simp only [apply_ite Engine.dialog_box, ite_self]
    · unfold Engine.playMusicE Engine.loadBackgroundE Engine.stopMusicE
        Engine.stopDialogSoundE
      simp only [apply_ite Engine.dialog_delay_start, ite_self]
    · unfold Engine.playMusicE Engine.loadBackgroundE Engine.stopMusicE
        Engine.stopDialogSoundE
      simp only [apply_ite Engine.dialog_delay_duration, ite_self]
    · unfold Engine.playMusicE Engine.loadBackgroundE Engine.stopMusicE
        Engine.stopDialogSoundE
      simp only [apply_ite Engine.dialog_is_delay_only, ite_self]

/-! ## Claim C10: loading an out-of-range dialog index is clamped -/

/-- Claim C10: loading a save whose stored `dialog_index` is `≥` the
number of dialog lines of the saved scene clamps the index to the last
line (`min(dialog_index, len(dialogs) - 1)`), which is in range; and
`_show_dialog` called with an out-of-range index returns the engine
unchanged. -/
theorem c10_load_clamps_index (e : Engine) (env : Env) (st : Story)
    (slot : String) (r : SaveRecord) (scene : Scene)
    (hst : e.story = some st)
    (hsave : e.save_manager.load_game slot = some r)
    (hsid : r.scene_id ≠ "")
    (hsc : st.get_scene r.scene_id = some scene)
    (hne : scene.dialogs ≠ [])
    (hover : scene.dialogs.length ≤ r.dialog_index) :
    (e.loadGame env slot).current_dialog_index = scene.dialogs.length - 1
    ∧ (e.loadGame env slot).current_dialog_index < scene.dialogs.length
    ∧ ∀ (e' : Engine) (s' : Scene) (i : ℕ),
        e'.current_scene = some s' → s'.dialogs.length ≤ i →
        e'.showDialog env i = e' := by
  have hlen : 0 < scene.dialogs.length := List.length_pos.mpr hne
  obtain ⟨hcs, hstory, hstate, hidx, htx, hsm, _⟩ :=
    goToScene_found e env st r.scene_id scene hst hsc
  have hmin : min r.dialog_index (scene.dialogs.length - 1)
      = scene.dialogs.length - 1 :=
    Nat.min_eq_right (le_trans (Nat.sub_le _ _) hover)
  have hget : scene.dialogs.get? (scene.dialogs.length - 1)
      = some (scene.dialogs.get ⟨scene.dialogs.length - 1, Nat.sub_lt hlen one_pos⟩) :=
    List.get?_eq_get _
  have hfirst : (e.loadGame env slot).current_dialog_index
      = scene.dialogs.length - 1 := by
    unfold Engine.loadGame
    rw [hsave]
    dsimp only
    rw [if_neg hsid]
    set e1 := e.goToScene env r.scene_id with he1
    dsimp only
    rw [hcs]
    dsimp only
    simp only [if_pos hne]
    rw [hmin]
    have hcs2 : ({ e1 with
          current_scene := some scene,
          current_dialog_index := scene.dialogs.length - 1 } : Engine).current_scene
        = some scene := rfl
    rw [showDialog_index _ env _ scene _ hcs2 hget]
  refine ⟨hfirst, ?_, ?_⟩
  · rw [hfirst]
    exact Nat.sub_lt hlen one_pos
  · intro e' s' i h1 h2
    exact showDialog_out_of_range e' env i s' h1 h2

/-- Witness for C10: a one-line scene loaded from a save with stored
index 5 lands on line 0. -/
theorem c10_witness :
    (Engine.loadGame
        { Engine.init with
            story := some ⟨"s", [], [("s", { id := "s", dialogs := [{}] })]⟩,
            save_manager := ⟨[("1", ⟨"s", "s", 5, "", 0⟩)], []⟩ }
        ⟨fun _ => false, 0⟩ "1").current_dialog_index = 0 :=
  (c10_load_clamps_index
      { Engine.init with
          story := some ⟨"s", [], [("s", { id := "s", dialogs := [{}] })]⟩,
          save_manager := ⟨[("1", ⟨"s", "s", 5, "", 0⟩)], []⟩ }
      ⟨fun _ => false, 0⟩ ⟨"s", [], [("s", { id := "s", dialogs := [{}] })]⟩
      "1" ⟨"s", "s", 5, "", 0⟩ { id := "s", dialogs := [{}] }
      rfl rfl (by decide) rfl (by decide) (by decide)).1

/-! ## Claim C1: entering a scene with an empty dialog list -/

/-- A story whose scene `a` has no dialogs and chains to `b`, and whose
scene `c` has no dialogs, no choices and no next scene. -/
def c1Story : Story :=
  ⟨"a", [], [("a", { id := "a", next_scene_id := some "b" }),
             ("b", { id := "b", dialogs := [{}] }),
             ("c", { id := "c" })]⟩

def c1Engine : Engine :=
  { Engine.init with story := some c1Story, state := "dialog" }

def env0 : Env := ⟨fun _ => false, 0⟩

/-- Counterexample to C1 as stated: entering empty-dialog scene `a`
(whose `next_scene_id` is `b`) leaves the engine on scene `a`, not `b`;
entering empty-dialog scene `c` (no choices, no next scene) leaves the
engine in the `dialog` state, not `End`.  The end-of-dialog transition
is not evaluated on scene entry. -/
theorem c1_counterexample :
    ((c1Engine.goToScene env0 "a").current_scene.map Scene.id = some "a"
      ∧ (c1Engine.goToScene env0 "a").current_scene.map Scene.id ≠ some "b")
    ∧ ((c1Engine.goToScene env0 "c").state = "dialog"
      ∧ (c1Engine.goToScene env0 "c").state ≠ "end") := by
  decide

theorem TextSprite.setup_block (d : TextDecl) :
    (TextSprite.setup d).block_skip = d.block_skip := by
  unfold TextSprite.setup
  dsimp only
  split <;> rfl

theorem TextSprite.start_block (s : TextSprite) (now : ℚ) :
    (s.start now).block_skip = s.block_skip := by
  unfold TextSprite.start
  dsimp only
  repeat' split
  all_goals rfl

theorem startNextText_block (now : ℚ) (l : List TextSprite)
    (h : ∀ s ∈ l, s.block_skip = false) :
    ∀ s ∈ startNextText now l, s.block_skip = false := by
  unfold startNextText
  split
  · rename_i i hfind
    intro s hs
    unfold updAt at hs
    cases hget : l.get? i with
    | none => rw [hget] at hs; exact h s hs
    | some a =>
        rw [hget] at hs
        rcases List.mem_or_eq_of_mem_set hs with hmem | heq
        · exact h s hmem
        · rw [heq, TextSprite.start_block]
          exact h a (List.get?_mem hget)
  · exact h

theorem loadTexts_block (now : ℚ) (data : List TextDecl)
    (h : ∀ t ∈ data, t.block_skip = false) :
    ∀ s ∈ loadTexts now data, s.block_skip = false := by
  unfold loadTexts
  apply startNextText_block
  intro s hs
  have hmem : s ∈ data.map TextSprite.setup :=
    (List.perm_insertionSort _ _).mem_iff.mp hs
  obtain ⟨t, ht, rfl⟩ := List.mem_map.mp hmem
  rw [TextSprite.setup_block]
  exact h t ht

/-- Claim C1 (amended): entering a scene whose dialog list is empty does
NOT evaluate the end-of-dialog transition: the engine stays in the
`dialog` state on that scene at index 0.  The transition is evaluated on
the first advance (`_next_dialog`): with no choices and no
`next_scene_id` it then goes to `End`, and with a set non-empty
`next_scene_id` it then loads that scene.  (The advance hypotheses: the
previous dialog box finished typing, no delay gate is pending, and the
new scene has no skip-blocking text overlay.) -/
theorem c1_amended (e : Engine) (env : Env) (st : Story) (sid : String)
    (scene : Scene)
    (hst : e.story = some st)
    (hsc : st.get_scene sid = some scene)
    (hdlg : scene.dialogs = [])
    (hbox : e.dialog_box.is_complete = true)
    (hdel : e.dialog_delay_start = none)
    (htexts : ∀ t ∈ scene.texts_on_screen, t.block_skip = false) :
    (e.goToScene env sid).current_scene = some scene
    ∧ (e.goToScene env sid).state = "dialog"
    ∧ (e.goToScene env sid).current_dialog_index = 0
    ∧ (scene.choices = [] → scene.next_scene_id = none →
        ((e.goToScene env sid).nextDialog env).state = "end")
    ∧ (∀ nid scene2, scene.choices = [] → scene.next_scene_id = some nid →
        nid ≠ "" → st.get_scene nid = some scene2 →
        ((e.goToScene env sid).nextDialog env).current_scene = some scene2
        ∧ ((e.goToScene env sid).nextDialog env).current_dialog_index = 0) := by
  obtain ⟨hcs, hstory, hstate, hidx, htx, hsm, hpres⟩ :=
    goToScene_found e env st sid scene hst hsc
  obtain ⟨hbox1, hds1, hdd1, hdo1⟩ := hpres hdlg
  have hblock : (e.goToScene env sid).isTextAnimationBlocking = false := by
    unfold Engine.isTextAnimationBlocking
    rw [htx]
    rw [List.any_eq_false]
    intro s hs
    simp [TextSprite.is_blocking, loadTexts_block env.now scene.texts_on_screen htexts s hs]
  have hdelay : (e.goToScene env sid).isDelayActive env = false := by
    unfold Engine.isDelayActive
    rw [hds1, hdel]
  have hboxc : (e.goToScene env sid).dialog_box.is_complete = true := by
    rw [hbox1, hbox]
  have hlen : scene.dialogs.length = 0 := by rw [hdlg]; rfl
  refine ⟨hcs, hstate, hidx, ?_, ?_⟩
  · intro hch hns
    unfold Engine.nextDialog
    rw [hcs]
    dsimp only
    rw [hblock, hdelay]
    simp only [Bool.false_eq_true, if_false]
    rw [hboxc]
    simp only [Bool.true_eq_false, false_and, if_false]
    rw [hidx, hlen]
    rw [if_neg (by decide : ¬ (0 + 1 < 0))]
    rw [if_neg (show ¬ scene.choices ≠ [] by simp [hch])]
    rw [hns]
  · intro nid scene2 hch hns hnid hsc2
    unfold Engine.nextDialog
    rw [hcs]
    dsimp only
    rw [hblock, hdelay]
    simp only [Bool.false_eq_true, if_false]
    rw [hboxc]
    simp only [Bool.true_eq_false, false_and, if_false]
    rw [hidx, hlen]
    rw [if_neg (by decide : ¬ (0 + 1 < 0))]
    rw [if_neg (show ¬ scene.choices ≠ [] by simp [hch])]
    rw [hns]
    dsimp only
    rw [if_pos hnid]
    obtain ⟨hcs2, _, _, hidx2, _, _, _⟩ :=
      goToScene_found (e.goToScene env sid) env st nid scene2
        (by rw [hstory, hst]) hsc2
    exact ⟨hcs2, hidx2⟩

/-- Witness for C1's amended theorem at the concrete story `c1Story`:
advancing once on empty-dialog scene `c` reaches the end screen. -/
theorem c1_witness :
    ((c1Engine.goToScene env0 "c").nextDialog env0).state = "end" :=
  ((c1_amended c1Engine env0 c1Story "c" { id := "c" } rfl rfl rfl rfl rfl
      (by intro t ht; cases ht)).2.2.2.1) rfl rfl

/-! ## Claim C2: side effects when loading a save -/

/-- The audio events `_show_dialog` emits when entering one dialog line:
stop the previous line's sound, then play the new line's sound if its
file is set and exists. -/
def lineSoundEvents (env : Env) (dl : DialogLine) : List Event :=
  Event.stopDialogSound ::
    (match dl.sound_file with
     | some p => if p ≠ "" ∧ env.fs p = true then [Event.playDialogSound p] else []
     | none => [])

/-- The music events scene entry emits after the initial stops. -/
def sceneMusicEvents (env : Env) (scene : Scene) : List Event :=
  if scene.music ≠ "" then
    (if env.fs scene.music then [Event.playMusicOk scene.music] else [])
  else []

theorem showDialog_events (e : Engine) (env : Env) (i : ℕ) (s : Scene)
    (d : DialogLine) (hsc : e.current_scene = some s)
    (hget : s.dialogs.get? i = some d) :
    (e.showDialog env i).events = e.events ++ lineSoundEvents env d := by
  unfold Engine.showDialog
  rw [hsc]
  dsimp only
  rw [hget]
  dsimp only
  unfold Engine.stopDialogSoundE lineSoundEvents
  repeat' split
  all_goals try rfl
  all_goals try simp [apply_ite Engine.events]
  all_goals try (rw [showSpeaking_chars_only]; try dsimp only; try simp [apply_ite Engine.events])

theorem goToScene_events_nonempty (e : Engine) (env : Env) (st : Story)
    (sid : String) (scene : Scene) (d : DialogLine)
    (hst : e.story = some st) (hsc : st.get_scene sid = some scene)
    (hget : scene.dialogs.get? 0 = some d) :
    (e.goToScene env sid).events
      = e.events ++ [Event.stopMusic, Event.stopDialogSound]
        ++ sceneMusicEvents env scene ++ lineSoundEvents env d := by
  have hne : scene.dialogs ≠ [] := by
    intro hemp
    rw [hemp] at hget
    cases hget
  unfold Engine.goToScene
  rw [hst]
  dsimp only
  rw [hsc]
  dsimp only
  rw [if_pos hne]
  have hcsX : ∀ (X : Engine), X.current_scene = some scene →
      (X.showDialog env 0).events = X.events ++ lineSoundEvents env d :=
    fun X hX => showDialog_events X env 0 scene d hX hget
  rw [hcsX _ (by
    unfold Engine.playMusicE Engine.loadBackgroundE Engine.stopMusicE
      Engine.stopDialogSoundE
    simp only [apply_ite Engine.current_scene, ite_self])]
  unfold Engine.playMusicE Engine.loadBackgroundE Engine.stopMusicE
    Engine.stopDialogSoundE sceneMusicEvents
  simp only [apply_ite Engine.events, ite_self]
  split_ifs <;> simp

/-- A story and save used to refute C2: scene `s` has two dialog lines,
line 0 with a sound file and line 1 (the save's landing line) without. -/
def c2Story : Story :=
  ⟨"s", [],
   [("s", { id := "s",
            dialogs := [{ sound_file := some "a.wav" }, {}] })]⟩

def c2Engine : Engine :=
  { Engine.init with
      story := some c2Story,
      save_manager := ⟨[("1", ⟨"s", "s", 1, "", 0⟩)], []⟩ }

def c2Env : Env := ⟨fun p => p == "a.wav", 0⟩

/-- Counterexample to C2 as stated: loading the save with dialog index 1
plays line 0's sound (`a.wav`) even though line 0 is a skipped line
(`0 ∈ 0..k-1` for `k = 1`) and the landing line has no sound at all.
Scene entry re-triggers line 0's entry side effects. -/
theorem c2_counterexample :
    Event.playDialogSound "a.wav" ∈ (c2Engine.loadGame c2Env "1").events
    ∧ (c2Engine.loadGame c2Env "1").current_dialog_index = 1
    ∧ (∀ d, c2Story.scenes = [("s", d)] →
        (d.dialogs.get? 1).map DialogLine.sound_file = some none) := by
  refine ⟨by decide, by decide, ?_⟩
  intro d hd
  cases hd
  rfl

/-- Claim C2 (amended): loading a slot with saved scene `S` and index
`k` goes to `S` — which re-runs scene entry and therefore re-triggers
line 0's entry side effects (its sound here) — and then shows the
landing line `k`, triggering its side effects; lines `1..k-1` are never
entered, so their sounds never play.  The full audio trace is exactly:
scene-entry stops, scene music, line 0's sound events, then line `k`'s
sound events; and the engine lands on index `k`. -/
theorem c2_amended (e : Engine) (env : Env) (st : Story) (slot : String)
    (r : SaveRecord) (scene : Scene) (d0 dk : DialogLine)
    (hst : e.story = some st)
    (hsave : e.save_manager.load_game slot = some r)
    (hsid : r.scene_id ≠ "")
    (hsc : st.get_scene r.scene_id = some scene)
    (hd0 : scene.dialogs.get? 0 = some d0)
    (hdk : scene.dialogs.get? r.dialog_index = some dk) :
    (e.loadGame env slot).events
      = e.events ++ [Event.stopMusic, Event.stopDialogSound]
        ++ sceneMusicEvents env scene ++ lineSoundEvents env d0
        ++ lineSoundEvents env dk
    ∧ (e.loadGame env slot).current_dialog_index = r.dialog_index := by
  have hne : scene.dialogs ≠ [] := by
    intro hemp
    rw [hemp] at hd0
    cases hd0
  obtain ⟨hkrange, -⟩ := List.get?_eq_some.mp hdk
  obtain ⟨hcs, hstory, hstate, hidx, htx, hsm, -⟩ :=
    goToScene_found e env st r.scene_id scene hst hsc
  have hkle : r.dialog_index ≤ scene.dialogs.length - 1 :=
    Nat.le_pred_of_lt hkrange
  have hmin : min r.dialog_index (scene.dialogs.length - 1) = r.dialog_index :=
    Nat.min_eq_left hkle
  have hev1 : (e.goToScene env r.scene_id).events
      = e.events ++ [Event.stopMusic, Event.stopDialogSound]
        ++ sceneMusicEvents env scene ++ lineSoundEvents env d0 :=
    goToScene_events_nonempty e env st r.scene_id scene d0 hst hsc hd0
  constructor
  · unfold Engine.loadGame
    rw [hsave]
    dsimp only
    rw [if_neg hsid]
    set e1 := e.goToScene env r.scene_id with he1
    dsimp only
    rw [hcs]
    dsimp only
    simp only [if_pos hne]
    rw [hmin]
    have hcs2 : ({ e1 with
          current_scene := some scene,
          current_dialog_index := r.dialog_index } : Engine).current_scene
        = some scene := rfl
    rw [showDialog_events _ env _ scene dk hcs2 hdk]
    dsimp only
    rw [hev1]
  · unfold Engine.loadGame
    rw [hsave]
    dsimp only
    rw [if_neg hsid]
    set e1 := e.goToScene env r.scene_id with he1
    dsimp only
    rw [hcs]
    dsimp only
    simp only [if_pos hne]
    rw [hmin]
    have hcs2 : ({ e1 with
          current_scene := some scene,
          current_dialog_index := r.dialog_index } : Engine).current_scene
        = some scene := rfl
    rw [showDialog_index _ env _ scene dk hcs2 hdk]

/-- Witness for C2's amended theorem on the concrete story: the full
audio trace of loading slot 1. -/
theorem c2_witness :
    (c2Engine.loadGame c2Env "1").events
      = c2Engine.events ++ [Event.stopMusic, Event.stopDialogSound]
        ++ sceneMusicEvents c2Env
            { id := "s", dialogs := [{ sound_file := some "a.wav" }, {}] }
        ++ lineSoundEvents c2Env { sound_file := some "a.wav" }
        ++ lineSoundEvents c2Env {} :=
  (c2_amended c2Engine c2Env c2Story "1" ⟨"s", "s", 1, "", 0⟩
      { id := "s", dialogs := [{ sound_file := some "a.wav" }, {}] }
      { sound_file := some "a.wav" } {} rfl rfl (by decide) rfl rfl rfl).1

/-! ## Claim C3: behaviour while the pause menu is active -/

def envAt (t : ℚ) : Env := ⟨fun _ => false, t⟩

/-- A non-looping track moving a character from `x = 0` to `x = 1` over
10 seconds, started at tick 0. -/
def c3Track : ActiveTrack :=
  ⟨0, [⟨0, 0, 0, 1, 0, 1⟩, ⟨10, 1, 0, 1, 0, 1⟩], false⟩

def c3Engine : Engine :=
  { Engine.init with
      state := "dialog",
      animation_player := ⟨[], [("h", c3Track)]⟩,
      characters_on_screen :=
        [{ CharacterSprite.init with character_id := some "h" }] }

/-- Counterexample to C3 as stated: at tick 1000 the animated sprite is
at `x = 1/10`; entering pause and ticking to 2000 leaves it untouched
(per-tick updates are skipped), but the first update after resuming, at
tick 3000, puts it at `x = 3/10` — the elapsed wall time including the
pause — not back at `1/10`.  The animation clock is not suspended. -/
theorem c3_counterexample :
    ((c3Engine.update (envAt 1000)).characters_on_screen
        = [⟨some "h", "center", 1/10, 0, 0, false, false, 1, 0, 0, 255, true, false⟩])
    ∧ ((c3Engine.update (envAt 1000)).openPauseMenu.update (envAt 2000)
        = (c3Engine.update (envAt 1000)).openPauseMenu)
    ∧ ((((c3Engine.update (envAt 1000)).openPauseMenu.update
            (envAt 2000)).resumeFromPause.update (envAt 3000)).characters_on_screen
        = [⟨some "h", "center", 3/10, 0, 0, false, false, 1, 0, 0, 255, true, false⟩])
    ∧ ((3 : ℚ)/10 ≠ 1/10) := by
  refine ⟨?_, rfl, ?_, by norm_num⟩
  · norm_num +decide [c3Engine, c3Track, envAt, Engine.update, Engine.init,
      DialogBox.update, DialogBox.init, Engine.isDelayActive,
      AnimationPlayer.update, animStep, evalTrackNE, trackLast, bracketAux,
      interp, pyFMod, pyInt, Keyframe.pose, applyPoseToChars, applyPoseToImages,
      updAt, CharacterSprite.init, CharacterSprite.set_exact_position,
      startNextText, List.findIdx?, List.foldl]
  · norm_num +decide [c3Engine, c3Track, envAt, Engine.update, Engine.init,
      Engine.openPauseMenu, Engine.resumeFromPause, DialogBox.update,
      DialogBox.init, Engine.isDelayActive, AnimationPlayer.update, animStep,
      evalTrackNE, trackLast, bracketAux, interp, pyFMod, pyInt, Keyframe.pose,
      applyPoseToChars, applyPoseToImages, updAt, CharacterSprite.init,
      CharacterSprite.set_exact_position, startNextText, List.findIdx?,
      List.foldl]

/-- Claim C3 (amended): while the pause menu is active, the per-tick
update is skipped entirely — `update` is the identity on the engine, so
the typewriter cursor and every sprite pose are unchanged for the whole
pause.  (Keyframe animations are however evaluated against the wall
clock, so on the first update after resuming an animated sprite's pose
reflects the full elapsed time including the pause, as the
counterexample shows; only the frame-counted typewriter resumes where it
left off.) -/
theorem c3_amended (e : Engine) (env : Env) (h : e.pause_active = true) :
    e.update env = e := by
  unfold Engine.update
  simp [h]

/-- Witness for C3's amended theorem: a paused engine is unchanged by an
update tick. -/
theorem c3_witness :
    Engine.update { Engine.init with pause_active := true } env0
      = { Engine.init with pause_active := true } :=
  c3_amended { Engine.init with pause_active := true } env0 rfl

end VN
